import Mathlib

/-!
Shallow embedding of the SA-IS suffix-array construction of this
repository (file src/unnamed/part_000, functions gt_sain_*).  The C code
works on 64-bit machine words; `suftab` entries are read both as
unsigned long and as long, so we model the array as raw 64-bit words
(`Nat` values below `2 ^ 64`) together with explicit helpers for the
signed view and for the bitwise complement.  Out-of-bounds sequence
accesses (which are undefined behaviour in C) are modelled by `Option`:
`gt_sainseq_getchar` returns `none` outside the sequence and every loop
that can fail propagates `none`.  Loops are written with an explicit
fuel argument that call sites instantiate with the exact trip count of
the corresponding C loop, so all definitions are structurally recursive
and computable by the kernel.  Writes to stdout are modelled by a trace
of `GtOutput` events emitted exactly where the C code calls printf.
-/

set_option maxHeartbeats 16000000
set_option maxRecDepth 1000000

namespace GtSain

/-- Modulus of 64-bit unsigned arithmetic (the type unsigned long of the code). -/
def u64 : Nat := 18446744073709551616

/-- Least 64-bit word whose signed (long) reading is negative. -/
def i64 : Nat := 9223372036854775808

/-- Bitwise complement of a 64-bit word; the C operator on an unsigned long
or, equivalently, on a long reinterpreted as its raw word. -/
def notU (v : Nat) : Nat := u64 - 1 - v

/-- The test (long) v greater than 0 on a raw 64-bit word v. -/
def sPos (v : Nat) : Bool := decide (0 < v) && decide (v < i64)

/-- The test (long) v less than 0 on a raw 64-bit word v. -/
def sNeg (v : Nat) : Bool := decide (i64 ≤ v)

/-- Modelled from the spec: GT_COMPAREOFFSET is not part of the sources under
src/.  Section 3 of the spec describes the special-position sentinel as a
position-unique value greater than any regular symbol, and the code passes
totallength plus GT_COMPAREOFFSET as the largest character value to
gt_sain_decideforfastmethod (line 83 of the source), so the offset is the
constant that lifts sentinels above every regular symbol; on byte alphabets
that constant is UCHAR_MAX plus 1, that is 256. -/
def GT_COMPAREOFFSET : Nat := 256

/-- Modelled from the spec: GT_UNIQUEINT is not part of the sources under
src/.  The spec (section 3) requires a position-unique sentinel greater than
any regular symbol, with distinct specials comparing by position.  The
formula given parenthetically in the spec (totallength - position + sigma)
contradicts the use of totallength + GT_COMPAREOFFSET as an upper bound of
all character codes at line 83 of the source and would make the rightmost
position of a special range L-type, overflowing the per-character counters;
we therefore use the monotone form position + GT_COMPAREOFFSET, which
satisfies every property the spec states in prose: it is unique per
position, larger than every regular symbol, and totallength +
GT_COMPAREOFFSET strictly bounds all of its values. -/
def GT_UNIQUEINT (position : Nat) : Nat := position + GT_COMPAREOFFSET

/-- Modelled from the spec: GT_FIRSTTWOBITS is not defined under src/.  The
spec (section 4.2) calls it the bound on the largest representable value
with the top two bits clear; on 64-bit words that threshold is 2 ^ 62. -/
def GT_FIRSTTWOBITS : Nat := 4611686018427387904

/-- Direct embedding of gt_sain_decideforfastmethod (source lines 61-66). -/
def gt_sain_decideforfastmethod (maxvalue len : Nat) : Bool :=
  decide (maxvalue < GT_FIRSTTWOBITS) && decide (len > 1024)

/-- Read modes of the external encoded-sequence collaborator. -/
inductive GtReadmode where
  | forward
  | reverse
  | compl
  | revcompl
deriving DecidableEq

/-- Modelled from the spec: GT_ISDIRREVERSE is not defined under src/; per
section 4.1 the encoded backend supports a forward or reverse read
direction, and the complemented modes come in both directions. -/
def GT_ISDIRREVERSE : GtReadmode → Bool
  | GtReadmode.reverse => true
  | GtReadmode.revcompl => true
  | _ => false

/-- Modelled from the spec: GT_ISDIRCOMPLEMENT is not defined under src/;
it recognises the two complemented read modes. -/
def GT_ISDIRCOMPLEMENT : GtReadmode → Bool
  | GtReadmode.compl => true
  | GtReadmode.revcompl => true
  | _ => false

/-- Modelled from the spec: GT_COMPLEMENTBASE is not defined under src/.
Complement read modes exist for the DNA alphabet of four symbols, where the
complement of base c is 3 - c. -/
def GT_COMPLEMENTBASE (c : Nat) : Nat := 3 - c

/-- Modelled from the spec: the external encoded sequence (section 6).  A
sequence is a list of stored positions, each either a regular symbol
(`some c` with c below the alphabet size 4 of the DNA alphabet for which
the complement read modes are defined) or a special position (`none`). -/
structure GtEncseq where
  chars : List (Option Nat)
deriving DecidableEq

/-- Modelled from the spec: total_length of the encoded sequence. -/
def gt_encseq_total_length (e : GtEncseq) : Nat := e.chars.length

/-- Modelled from the spec: number of alphabet characters; the model fixes
the DNA alphabet. -/
def gt_encseq_alphabetnumofchars (_e : GtEncseq) : Nat := 4

/-- Modelled from the spec: char_count, the number of stored occurrences of
the regular symbol c. -/
def gt_encseq_charcount (e : GtEncseq) (c : Nat) : Nat :=
  e.chars.countP (fun x => x == some c)

/-- Modelled from the spec: the total number of special positions. -/
def gt_encseq_specialcharacters (e : GtEncseq) : Nat :=
  e.chars.countP (fun x => x.isNone)

/-- Modelled from the spec: get_encoded_char under a read mode.  The outer
`Option` is the embedding artefact for an out-of-range position; the inner
`Option` is `none` exactly when the read position is special (ISSPECIAL). -/
def gt_encseq_get_encoded_char (e : GtEncseq) (position : Nat)
    (readmode : GtReadmode) : Option (Option Nat) :=
  let n := gt_encseq_total_length e
  if position < n then
    let stored := e.chars.getD (if GT_ISDIRREVERSE readmode then n - 1 - position else position) none
    some (if GT_ISDIRCOMPLEMENT readmode then stored.map GT_COMPLEMENTBASE else stored)
  else
    none

/-- Helper for the special-range enumeration: collect maximal runs of
special positions of the stored sequence as half-open intervals, scanning
the list once. -/
def specialRunsAux : List (Option Nat) → Nat → Option Nat → List (Nat × Nat)
  | [], _, none => []
  | [], pos, some start => [(start, pos)]
  | none :: rest, pos, none => specialRunsAux rest (pos + 1) (some pos)
  | none :: rest, pos, some start => specialRunsAux rest (pos + 1) (some start)
  | some _ :: rest, pos, none => specialRunsAux rest (pos + 1) none
  | some _ :: rest, pos, some start => (start, pos) :: specialRunsAux rest (pos + 1) none

/-- Modelled from the spec: the restartable special-range iterator yields
maximal [start, end) intervals of special positions; this list holds them
in increasing stored order. -/
def gt_specialranges (e : GtEncseq) : List (Nat × Nat) :=
  specialRunsAux e.chars 0 none

/-- Modelled from the spec: has_special_ranges. -/
def gt_encseq_has_specialranges (e : GtEncseq) : Bool :=
  !(gt_specialranges e).isEmpty

/-- Modelled from the spec: the iterator direction flag; moveforward true
yields ranges in increasing stored order, false in decreasing order. -/
def gt_specialrangeList (e : GtEncseq) (moveforward : Bool) : List (Nat × Nat) :=
  if moveforward then gt_specialranges e else (gt_specialranges e).reverse

/-- Modelled from the spec: gt_range_reverse maps the half-open stored
interval [s, e) to the read-direction interval [n - e, n - s). -/
def gt_range_reverse (totallength : Nat) (r : Nat × Nat) : Nat × Nat :=
  (totallength - r.2, totallength - r.1)

/-- The three sequence backends of the GtSainseq union (source lines 32-37). -/
inductive GtSainSeqtype where
  | plainseq
  | intseq
  | encseq
deriving DecidableEq

/-- Word-addressed memory used to embed suftab, the per-character arrays
and the write-buffer cache: a total function from cell indices to stored
words.  Unwritten cells read 0 (the embedding only ever reads cells the C
code has initialised, or models calloc). -/
def updFn (f : Nat → Nat) (i v : Nat) : Nat → Nat :=
  fun j => if j = i then v else f j

/-- Sequencing point of the eager C evaluation order: C computes the
machine words of a statement before the next statement runs, while a Lean
loop would otherwise pass them on as unevaluated expressions.  strict n k
is observationally k n (theorem strict_eq below) and only pins the moment
the kernel evaluates n. -/
def strict {α : Sort u} (n : Nat) (k : Nat → α) : α :=
  match n with
  | 0 => k 0
  | m + 1 => k (m + 1)

/-- One event written to stdout; the trace of a run collects them in
printing order.  levelLine is the unconditional printf opening
gt_sain_rec_sortsuffixes; sstarShow is gt_saininfo_show (verbose only);
bufferUsed is the printf of gt_sainbuffer_new, recording the determining
quantities of the printed byte count; bucketsizeRequired is the fallback
printf of gt_sainseq_new_from_array; timerLine stands for
gt_timer_show_progress writing the phase description. -/
inductive GtOutput where
  | levelLine (level totallength numofchars : Nat)
  | sstarShow (countSstartype totallength : Nat)
  | bufferUsed (cachesize bufsize : Nat)
  | bucketsizeRequired (needed left : Nat)
  | timerLine (desc : String)
deriving DecidableEq

/-- The immutable part of a GtSainseq (source lines 39-59): which backend,
its data (the union), the lengths, and where each of the three bucket
arrays lives.  A base of `some b` means the array is aliased onto
suftab starting at index b (the points2suftab flags of the C struct);
`none` means it is an independent allocation. -/
structure GtSainseqCfg where
  seqtype : GtSainSeqtype
  plainseq : Array Nat
  arrseq : Nat → Nat
  encseqM : GtEncseq
  readmode : GtReadmode
  totallength : Nat
  numofchars : Nat
  bucketsizeBase : Option Nat
  bucketfillptrBase : Option Nat
  roundtableBase : Option Nat

/-- Where the sstarfirstcharcount pointer of a GtSainseq points: its own
allocation, NULL (the integer backend before gt_sain_expandorder2original),
or the bucketfillptr storage (after the assignment at source lines 1253 and
1501). -/
inductive GtSstarMode where
  | own
  | nullp
  | fillp
deriving DecidableEq

/-- The mutable memory a recursion level works on: the shared output array
suftab (as cell contents and entry count) plus the backing stores of the
per-character arrays that are not aliased onto suftab, the NULL state of
roundtable and sstarfirstcharcount, and currentround. -/
structure GtSainState where
  suftab : Nat → Nat
  suftabentries : Nat
  bucketsize : Nat → Nat
  bucketfillptr : Nat → Nat
  roundtable : Nat → Nat
  roundtablePresent : Bool
  sstar : Nat → Nat
  sstarMode : GtSstarMode
  currentround : Nat

/-- Read sainseq->bucketsize[i], through suftab when aliased. -/
def getBucketsize (cfg : GtSainseqCfg) (st : GtSainState) (i : Nat) : Nat :=
  match cfg.bucketsizeBase with
  | some b => st.suftab (b + i)
  | none => st.bucketsize i

/-- Write sainseq->bucketsize[i], through suftab when aliased. -/
def setBucketsize (cfg : GtSainseqCfg) (st : GtSainState) (i v : Nat) : GtSainState :=
  match cfg.bucketsizeBase with
  | some b => { st with suftab := updFn st.suftab (b + i) v }
  | none => { st with bucketsize := updFn st.bucketsize i v }

/-- Read sainseq->bucketfillptr[i], through suftab when aliased. -/
def getBucketfillptr (cfg : GtSainseqCfg) (st : GtSainState) (i : Nat) : Nat :=
  match cfg.bucketfillptrBase with
  | some b => st.suftab (b + i)
  | none => st.bucketfillptr i

/-- Write sainseq->bucketfillptr[i], through suftab when aliased. -/
def setBucketfillptr (cfg : GtSainseqCfg) (st : GtSainState) (i v : Nat) : GtSainState :=
  match cfg.bucketfillptrBase with
  | some b => { st with suftab := updFn st.suftab (b + i) v }
  | none => { st with bucketfillptr := updFn st.bucketfillptr i v }

/-- Read sainseq->roundtable[i], through suftab when aliased. -/
def getRoundtable (cfg : GtSainseqCfg) (st : GtSainState) (i : Nat) : Nat :=
  match cfg.roundtableBase with
  | some b => st.suftab (b + i)
  | none => st.roundtable i

/-- Write sainseq->roundtable[i], through suftab when aliased. -/
def setRoundtable (cfg : GtSainseqCfg) (st : GtSainState) (i v : Nat) : GtSainState :=
  match cfg.roundtableBase with
  | some b => { st with suftab := updFn st.suftab (b + i) v }
  | none => { st with roundtable := updFn st.roundtable i v }

/-- Whether sainseq->sstarfirstcharcount is not NULL. -/
def sstarTracked (st : GtSainState) : Bool :=
  match st.sstarMode with
  | GtSstarMode.nullp => false
  | _ => true

/-- Read sainseq->sstarfirstcharcount[i]; after the assignment of source
line 1253 this storage is the bucketfillptr storage. -/
def getSstar (cfg : GtSainseqCfg) (st : GtSainState) (i : Nat) : Nat :=
  match st.sstarMode with
  | GtSstarMode.own => st.sstar i
  | GtSstarMode.fillp => getBucketfillptr cfg st i
  | GtSstarMode.nullp => 0

/-- Write sainseq->sstarfirstcharcount[i]. -/
def setSstar (cfg : GtSainseqCfg) (st : GtSainState) (i v : Nat) : GtSainState :=
  match st.sstarMode with
  | GtSstarMode.own => { st with sstar := updFn st.sstar i v }
  | GtSstarMode.fillp => setBucketfillptr cfg st i v
  | GtSstarMode.nullp => st

/-- Write suftab[i]. -/
def setSuftab (st : GtSainState) (i v : Nat) : GtSainState :=
  { st with suftab := updFn st.suftab i v }

/-- Read suftab[i]. -/
def getSuftab (st : GtSainState) (i : Nat) : Nat :=
  st.suftab i

/-- Embedding of gt_sainseq_getchar (source lines 250-267).  `none` models
the out-of-bounds access that the C code performs when position is not
below the sequence length (the assertion compiled under
GT_SAIN_WITHCOUNTS). -/
def gt_sainseq_getchar (cfg : GtSainseqCfg) (position : Nat) : Option Nat :=
  match cfg.seqtype with
  | GtSainSeqtype.plainseq => cfg.plainseq.get? position
  | GtSainSeqtype.intseq =>
    if position < cfg.totallength then some (cfg.arrseq position) else none
  | GtSainSeqtype.encseq =>
    match gt_encseq_get_encoded_char cfg.encseqM position cfg.readmode with
    | none => none
    | some none => some (GT_UNIQUEINT position)
    | some (some cc) => some cc

/-- Loop body collection for gt_sain_endbuckets (source lines 269-279):
charidx runs from 1 while fuel lasts. -/
def endbucketsLoop (cfg : GtSainseqCfg) : Nat → Nat → Nat → GtSainState → GtSainState
  | 0, _, _, st => st
  | fuel + 1, charidx, previous, st =>
    strict charidx fun charidx =>
    strict (previous + getBucketsize cfg st charidx) fun previous =>
    let st := setBucketfillptr cfg st charidx previous
    endbucketsLoop cfg fuel (charidx + 1) previous st

/-- Embedding of gt_sain_endbuckets (source lines 269-279). -/
def gt_sain_endbuckets (cfg : GtSainseqCfg) (st : GtSainState) : GtSainState :=
  let previous := getBucketsize cfg st 0
  let st := setBucketfillptr cfg st 0 previous
  endbucketsLoop cfg (cfg.numofchars - 1) 1 previous st

/-- Loop body collection for gt_sain_startbuckets (source lines 281-291). -/
def startbucketsLoop (cfg : GtSainseqCfg) : Nat → Nat → Nat → GtSainState → GtSainState
  | 0, _, _, st => st
  | fuel + 1, charidx, previous, st =>
    strict charidx fun charidx =>
    strict (previous + getBucketsize cfg st (charidx - 1)) fun previous =>
    let st := setBucketfillptr cfg st charidx previous
    startbucketsLoop cfg fuel (charidx + 1) previous st

/-- Embedding of gt_sain_startbuckets (source lines 281-291). -/
def gt_sain_startbuckets (cfg : GtSainseqCfg) (st : GtSainState) : GtSainState :=
  let st := setBucketfillptr cfg st 0 0
  startbucketsLoop cfg (cfg.numofchars - 1) 1 0 st

/-- Halving loop computing the bit count of a value; structural so that the
kernel can evaluate it. -/
def bitsLoop : Nat → Nat → Nat
  | 0, _ => 1
  | fuel + 1, v => if v ≥ 2 then bitsLoop fuel (v / 2) + 1 else 1

/-- Modelled from the spec: gt_determinebitspervalue is not defined under
src/; it is the number of bits needed to represent its argument, chosen in
section 4.3 so that the whole cache holds about 2 ^ 18 bytes. -/
def gt_determinebitspervalue (v : Nat) : Nat := bitsLoop v v

/-- The GtSainbuffer struct (source lines 299-305); the fillptr and suftab
pointers it stores are the per-level state and are passed explicitly to the
operations below. -/
structure GtSainbuffer where
  values : Nat → Nat
  nextidx : Nat → Nat
  log_bufsize : Nat
  buf_size : Nat
  numofchars : Nat

/-- Embedding of gt_sainbuffer_new (source lines 307-335); returns the
buffer (NULL when numofchars exceeds 256) together with the stdout line it
prints.  The constant 2 in log_bufsize is the 64-bit case of the sizeof
test of line 318; the malloc of values is uninitialised in C and zero here,
which is unobservable because reads only cover previously written cells. -/
def gt_sainbuffer_new (numofchars : Nat) : Option GtSainbuffer × List GtOutput :=
  if numofchars ≤ 256 then
    let log_bufsize := 18 - 2 - gt_determinebitspervalue numofchars
    let buf_size := 2 ^ log_bufsize
    let cachesize := numofchars <<< log_bufsize
    (some { values := fun _ => 0,
            nextidx := fun _ => 0,
            log_bufsize, buf_size, numofchars },
     [GtOutput.bufferUsed cachesize buf_size])
  else
    (none, [])

/-- The descending copy loop shared by gt_sainbuffer_update and
gt_sainbuffer_flushall (source lines 349-356 and 376-383): fuel many values
are read ascending from readidx and written to suftab descending from
writeidx. -/
def sainbufferBurst : Nat → GtSainState → Nat → Nat → (Nat → Nat) → GtSainState
  | 0, st, _, _, _ => st
  | fuel + 1, st, writeidx, readidx, values =>
    strict writeidx fun writeidx =>
    strict readidx fun readidx =>
    strict (values readidx) fun v =>
    let st := setSuftab st writeidx v
    sainbufferBurst fuel st (writeidx - 1) (readidx + 1) values

/-- Embedding of gt_sainbuffer_update (source lines 337-360). -/
def gt_sainbuffer_update (cfg : GtSainseqCfg) (st : GtSainState)
    (buf : GtSainbuffer) (charidx value : Nat) : GtSainState × GtSainbuffer :=
  strict (charidx <<< buf.log_bufsize) fun offset =>
  strict (buf.nextidx charidx) fun ni =>
  strict value fun value =>
  let values := updFn buf.values (offset + ni) value
  if ni < buf.buf_size - 1 then
    (st, { buf with values, nextidx := updFn buf.nextidx charidx (ni + 1) })
  else
    strict (getBucketfillptr cfg st charidx) fun fp =>
    let st := sainbufferBurst buf.buf_size st (fp - 1) offset values
    let st := setBucketfillptr cfg st charidx (fp - buf.buf_size)
    (st, { buf with values, nextidx := updFn buf.nextidx charidx 0 })

/-- Per-character loop of gt_sainbuffer_flushall (source lines 362-388). -/
def sainbufferFlushLoop (cfg : GtSainseqCfg) :
    Nat → Nat → GtSainState → GtSainbuffer → GtSainState
  | 0, _, st, _ => st
  | fuel + 1, charidx, st, buf =>
    let bufleft := buf.nextidx charidx
    if bufleft > 0 then
      strict (getBucketfillptr cfg st charidx) fun fp =>
      let st := sainbufferBurst bufleft st (fp - 1) (charidx <<< buf.log_bufsize) buf.values
      let st := setBucketfillptr cfg st charidx (fp - bufleft)
      sainbufferFlushLoop cfg fuel (charidx + 1) st
        { buf with nextidx := updFn buf.nextidx charidx 0 }
    else
      sainbufferFlushLoop cfg fuel (charidx + 1) st buf

/-- Embedding of gt_sainbuffer_flushall; a NULL buffer is a no-op. -/
def gt_sainbuffer_flushall (cfg : GtSainseqCfg) (st : GtSainState) :
    Option GtSainbuffer → GtSainState
  | none => st
  | some buf => sainbufferFlushLoop cfg buf.numofchars 0 st buf

/-- Embedding of the loop-local state of gt_saininfo_new (source lines
400-452): the memory, the optional write buffer, the running LMS count and
the symbol and type of the previously scanned (right-hand) position. -/
structure GtScanState where
  st : GtSainState
  buf : Option GtSainbuffer
  countSstartype : Nat
  nextcc : Nat
  nextisStype : Bool

/-- One iteration of the classification scan of gt_saininfo_new (source
lines 415-447) at the given position: classify the position, and when it is
L-type while the position to its right is S-type (that right neighbour is
then LMS) count it, bump sstarfirstcharcount when tracked, and seed by the
buffered or direct bucket-tail write; finally shift the loop-carried
symbol and type. -/
def gt_saininfo_step (cfg : GtSainseqCfg) (position : Nat)
    (s : GtScanState) : Option GtScanState :=
  match gt_sainseq_getchar cfg position with
  | none => none
  | some currentcc =>
    let currentisStype :=
      decide (currentcc < s.nextcc) || (decide (currentcc = s.nextcc) && s.nextisStype)
    let s1 :=
      if !currentisStype && s.nextisStype then
        strict (s.countSstartype + 1) fun count =>
        let st :=
          if sstarTracked s.st then
            strict (getSstar cfg s.st s.nextcc + 1) fun n =>
            setSstar cfg s.st s.nextcc n
          else s.st
        match s.buf with
        | some buf =>
          let r := gt_sainbuffer_update cfg st buf s.nextcc position
          { s with st := r.1, buf := some r.2, countSstartype := count }
        | none =>
          strict (getBucketfillptr cfg st s.nextcc) fun fp =>
          let st := setBucketfillptr cfg st s.nextcc (fp - 1)
          let st := setSuftab st (fp - 1) position
          { s with st := st, countSstartype := count }
      else s
    some { s1 with nextcc := currentcc, nextisStype := currentisStype }

/-- The scan loop of gt_saininfo_new, from the given position down to 0;
fuel is one more than the start position at the call site. -/
def saininfoLoop (cfg : GtSainseqCfg) : Nat → Nat → GtScanState → Option GtScanState
  | 0, _, _ => none
  | fuel + 1, position, s =>
    match gt_saininfo_step cfg position s with
    | none => none
    | some s => if position = 0 then some s else saininfoLoop cfg fuel (position - 1) s

/-- The GtSaininfo struct (source lines 293-297) without the back pointer. -/
structure GtSaininfo where
  countSstartype : Nat
deriving DecidableEq

/-- Embedding of gt_saininfo_new (source lines 400-452).  The C loop starts
at totallength - 1 computed in unsigned arithmetic, so a zero-length
sequence starts the scan at 2 ^ 64 - 1 and the first character access is
out of bounds, returning none here. -/
def gt_saininfo_new (cfg : GtSainseqCfg) (st : GtSainState) :
    Option (GtSaininfo × GtSainState × List GtOutput) :=
  let r := gt_sainbuffer_new cfg.numofchars
  let st := gt_sain_endbuckets cfg st
  let startpos := (cfg.totallength + (u64 - 1)) % u64
  let s0 : GtScanState :=
    { st, buf := r.1, countSstartype := 0,
      nextcc := GT_UNIQUEINT cfg.totallength, nextisStype := true }
  match saininfoLoop cfg (startpos + 1) startpos s0 with
  | none => none
  | some s =>
    let st := gt_sainbuffer_flushall cfg s.st s.buf
    some ({ countSstartype := s.countSstartype }, st, r.2)

/-- Count loop of gt_sainseq_new_from_plainseq (source lines 140-143). -/
def plainCountLoop (plainseq : Array Nat) : Nat → Nat → (Nat → Nat) → Nat → Nat
  | 0, _, bsz => bsz
  | fuel + 1, idx, bsz =>
    strict idx fun idx =>
    strict (plainseq.getD idx 0) fun c =>
    strict (bsz c + 1) fun v =>
    plainCountLoop plainseq fuel (idx + 1) (updFn bsz c v)

/-- Embedding of gt_sainseq_new_from_plainseq (source lines 112-145).  The
suftab field of the returned state is a placeholder that the entry point
replaces by the callocated output array; none of the per-character arrays
aliases suftab at this level. -/
def gt_sainseq_new_from_plainseq (plainseq : Array Nat) (len : Nat) :
    GtSainseqCfg × GtSainState :=
  let numofchars : Nat := 256
  let cfg : GtSainseqCfg :=
    { seqtype := GtSainSeqtype.plainseq, plainseq, arrseq := fun _ => 0,
      encseqM := ⟨[]⟩, readmode := GtReadmode.forward,
      totallength := len, numofchars,
      bucketsizeBase := none, bucketfillptrBase := none, roundtableBase := none }
  let roundtablePresent := gt_sain_decideforfastmethod (len + 1) len
  let st : GtSainState :=
    { suftab := fun _ => 0,
      suftabentries := 0,
      bucketsize := plainCountLoop plainseq len 0 (fun _ => 0),
      bucketfillptr := fun _ => 0,
      roundtable := fun _ => 0,
      roundtablePresent,
      sstar := fun _ => 0,
      sstarMode := GtSstarMode.own,
      currentround := 0 }
  (cfg, st)

/-- Bucket-size loop of gt_sainseq_new_from_encseq (source lines 98-108):
under a complement read mode the count of the complement base is used. -/
def encBucketsizeLoop (e : GtEncseq) (readmode : GtReadmode) :
    Nat → Nat → (Nat → Nat) → Nat → Nat
  | 0, _, bsz => bsz
  | fuel + 1, idx, bsz =>
    let v :=
      if GT_ISDIRCOMPLEMENT readmode then gt_encseq_charcount e (GT_COMPLEMENTBASE idx)
      else gt_encseq_charcount e idx
    encBucketsizeLoop e readmode fuel (idx + 1) (updFn bsz idx v)

/-- Embedding of gt_sainseq_new_from_encseq (source lines 68-110). -/
def gt_sainseq_new_from_encseq (encseq : GtEncseq) (readmode : GtReadmode) :
    GtSainseqCfg × GtSainState :=
  let totallength := gt_encseq_total_length encseq
  let numofchars := gt_encseq_alphabetnumofchars encseq
  let cfg : GtSainseqCfg :=
    { seqtype := GtSainSeqtype.encseq, plainseq := #[], arrseq := fun _ => 0,
      encseqM := encseq, readmode, totallength, numofchars,
      bucketsizeBase := none, bucketfillptrBase := none, roundtableBase := none }
  let roundtablePresent :=
    gt_sain_decideforfastmethod (totallength + GT_COMPAREOFFSET) totallength
  let st : GtSainState :=
    { suftab := fun _ => 0,
      suftabentries := 0,
      bucketsize := encBucketsizeLoop encseq readmode numofchars 0 (fun _ => 0),
      bucketfillptr := fun _ => 0,
      roundtable := fun _ => 0,
      roundtablePresent,
      sstar := fun _ => 0,
      sstarMode := GtSstarMode.own,
      currentround := 0 }
  (cfg, st)

/-- Zeroing loop of gt_sainseq_new_from_array (source lines 211-214),
running through the bucketsize accessor because the array may alias
suftab. -/
def arrZeroLoop (cfg : GtSainseqCfg) : Nat → Nat → GtSainState → GtSainState
  | 0, _, st => st
  | fuel + 1, idx, st =>
    strict idx fun idx =>
    arrZeroLoop cfg fuel (idx + 1) (setBucketsize cfg st idx 0)

/-- Count loop of gt_sainseq_new_from_array (source lines 215-218). -/
def arrCountLoop (arr : Nat → Nat) (cfg : GtSainseqCfg) :
    Nat → Nat → GtSainState → GtSainState
  | 0, _, st => st
  | fuel + 1, idx, st =>
    strict idx fun idx =>
    strict (arr idx) fun c =>
    strict (getBucketsize cfg st c + 1) fun v =>
    arrCountLoop arr cfg fuel (idx + 1) (setBucketsize cfg st c v)

/-- Embedding of gt_sainseq_new_from_array (source lines 147-220).  The
three per-character arrays are placed, in the order bucketsize,
bucketfillptr, roundtable, onto the unused tail of suftab when the region
above firstusable is large enough, otherwise they are fresh allocations;
the bucketsize fallback also prints a diagnostic (source line 170, the only
one of the three fallback printfs not commented out). -/
def gt_sainseq_new_from_array (arr : Nat → Nat) (len numofchars : Nat)
    (suftab : Nat → Nat) (firstusable suftabentries : Nat) :
    GtSainseqCfg × GtSainState × List GtOutput :=
  let bucketsizeBase :=
    if suftabentries - firstusable ≥ numofchars then
      some (suftabentries - numofchars)
    else none
  let trace :=
    if suftabentries - firstusable ≥ numofchars then ([] : List GtOutput)
    else [GtOutput.bucketsizeRequired numofchars (suftabentries - firstusable)]
  let bucketfillptrBase :=
    if suftabentries - firstusable ≥ 2 * numofchars then
      some (suftabentries - 2 * numofchars)
    else none
  let fast := gt_sain_decideforfastmethod (len + 1) len
  let roundtableBase :=
    if fast then
      if suftabentries - firstusable ≥ 4 * numofchars then
        some (suftabentries - 4 * numofchars)
      else none
    else none
  let cfg : GtSainseqCfg :=
    { seqtype := GtSainSeqtype.intseq, plainseq := #[], arrseq := arr,
      encseqM := ⟨[]⟩, readmode := GtReadmode.forward,
      totallength := len, numofchars,
      bucketsizeBase, bucketfillptrBase, roundtableBase }
  let st : GtSainState :=
    { suftab,
      suftabentries,
      bucketsize := fun _ => 0,
      bucketfillptr := fun _ => 0,
      roundtable := fun _ => 0,
      roundtablePresent := fast,
      sstar := fun _ => 0,
      sstarMode := GtSstarMode.nullp,
      currentround := 0 }
  let st := arrZeroLoop cfg numofchars 0 st
  let st := arrCountLoop arr cfg len 0 st
  (cfg, st, trace)

/-- Per-character loop of gt_sain_incrementfirstSstar (source lines
479-495): round-tag the first Sstar seed of every non-empty bucket and
clear the round table. -/
def incrementfirstSstarLoop (cfg : GtSainseqCfg) :
    Nat → Nat → Nat → GtSainState → GtSainState
  | 0, _, _, st => st
  | fuel + 1, charidx, sum, st =>
    strict charidx fun charidx =>
    strict (sum + getBucketsize cfg st charidx) fun sum =>
    strict (getBucketfillptr cfg st charidx) fun fp =>
    let st :=
      if fp < sum then
        strict (getSuftab st fp + cfg.totallength) fun v => setSuftab st fp v
      else st
    let st := setRoundtable cfg st charidx 0
    let st := setRoundtable cfg st (charidx + cfg.numofchars) 0
    incrementfirstSstarLoop cfg fuel (charidx + 1) sum st

/-- Embedding of gt_sain_incrementfirstSstar (source lines 479-495). -/
def gt_sain_incrementfirstSstar (cfg : GtSainseqCfg) (st : GtSainState) : GtSainState :=
  incrementfirstSstarLoop cfg cfg.numofchars 0 0 st

/-- Embedding of the GT_SAINUPDATEBUCKETPTR macro (source lines 497-510).
The cache is `some (ptr, lastupdatecc)` when bucketptr is not NULL; the
result carries the state (with the flushed fill pointer on a character
change), the index to write through and the new lastupdatecc. -/
def gt_sain_updatebucketptr (cfg : GtSainseqCfg) (st : GtSainState)
    (bp : Option (Nat × Nat)) (currentcc : Nat) : GtSainState × Nat × Nat :=
  match bp with
  | some (ptr, lastupdatecc) =>
    if currentcc ≠ lastupdatecc then
      let st := setBucketfillptr cfg st lastupdatecc ptr
      (st, getBucketfillptr cfg st currentcc, currentcc)
    else
      (st, ptr, lastupdatecc)
  | none => (st, getBucketfillptr cfg st currentcc, currentcc)

/-- Main loop of gt_sain_induceLtypesuffixes1 (source lines 520-581),
iterating left to right over the nonspecial prefix of suftab. -/
def induceL1Loop (cfg : GtSainseqCfg) :
    Nat → Nat → GtSainState → Option (Nat × Nat) → Option (GtSainState × Option (Nat × Nat))
  | 0, _, st, bp => some (st, bp)
  | fuel + 1, idx, st, bp =>
    let raw := getSuftab st idx
    if sPos raw then
      let st := if raw ≥ cfg.totallength then { st with currentround := st.currentround + 1 } else st
      let p0 := if raw ≥ cfg.totallength then raw - cfg.totallength else raw
      match gt_sainseq_getchar cfg p0 with
      | none => none
      | some currentcc =>
        if currentcc < cfg.numofchars then
          if p0 > 0 then
            let p1 := p0 - 1
            match gt_sainseq_getchar cfg p1 with
            | none => none
            | some leftcontextcc =>
              let rt :=
                if st.roundtablePresent then
                  let t := 2 * currentcc + (if leftcontextcc < currentcc then 1 else 0)
                  if getRoundtable cfg st t < st.currentround then
                    (setRoundtable cfg st t st.currentround, p1 + cfg.totallength)
                  else (st, p1)
                else (st, p1)
              let u := gt_sain_updatebucketptr cfg rt.1 bp currentcc
              strict u.2.1 fun putidx =>
              strict (if leftcontextcc < currentcc then notU rt.2 else rt.2) fun v =>
              let st := setSuftab u.1 putidx v
              let st := setSuftab st idx 0
              induceL1Loop cfg fuel (idx + 1) st (some (putidx + 1, u.2.2))
          else
            induceL1Loop cfg fuel (idx + 1) st bp
        else
          induceL1Loop cfg fuel (idx + 1) (setSuftab st idx 0) bp
    else
      if sNeg raw then
        induceL1Loop cfg fuel (idx + 1) (setSuftab st idx (notU raw)) bp
      else
        induceL1Loop cfg fuel (idx + 1) st bp

/-- Inner leftward walk of the cleanup pass of gt_sain_induceLtypesuffixes1
(source lines 594-598): find the next slot, at jplus1 - 1 going left, whose
signed value is at least totallength.  Falling off the left end makes the C
code read suftab[-1]; that undefined behaviour is modelled as none. -/
def induceL1CleanWalk (cfg : GtSainseqCfg) : Nat → Nat → GtSainState → Option Nat
  | 0, _, _ => none
  | fuel + 1, jplus1, st =>
    if jplus1 = 0 then none
    else
      let raw := getSuftab st (jplus1 - 1)
      if sNeg raw || decide (raw < cfg.totallength) then
        induceL1CleanWalk cfg fuel (jplus1 - 1) st
      else
        some (jplus1 - 1)

/-- Outer right-to-left cleanup pass of gt_sain_induceLtypesuffixes1
(source lines 586-605), run only with a round table: re-tag stray in-range
positive values and un-tag the next tagged slot to their left. -/
def induceL1CleanLoop (cfg : GtSainseqCfg) : Nat → Nat → GtSainState → Option GtSainState
  | _, 0, st => some st
  | 0, _, _ => none
  | fuel + 1, idxp1, st =>
    let idx := idxp1 - 1
    let raw := getSuftab st idx
    if sPos raw && decide (raw < cfg.totallength) then
      strict (raw + cfg.totallength) fun v =>
      let st := setSuftab st idx v
      match induceL1CleanWalk cfg (idx + 1) idx st with
      | none => none
      | some j =>
        strict (getSuftab st j - cfg.totallength) fun w =>
        let st := setSuftab st j w
        induceL1CleanLoop cfg fuel j st
    else
      induceL1CleanLoop cfg fuel idx st

/-- Embedding of gt_sain_induceLtypesuffixes1 (source lines 512-606). -/
def gt_sain_induceLtypesuffixes1 (cfg : GtSainseqCfg) (st : GtSainState)
    (nonspecialentries : Nat) : Option GtSainState :=
  let st := { st with currentround := 0 }
  match induceL1Loop cfg nonspecialentries 0 st none with
  | none => none
  | some r =>
    if r.1.roundtablePresent then
      induceL1CleanLoop cfg (nonspecialentries + 1) nonspecialentries r.1
    else
      some r.1

/-- Embedding of gt_sain_special_singleSinduction1 (source lines 608-643);
seeds the S-suffix that precedes the sequence end or a special range. -/
def gt_sain_special_singleSinduction1 (cfg : GtSainseqCfg) (st : GtSainState)
    (position : Nat) : Option GtSainState :=
  match gt_sainseq_getchar cfg position with
  | none => none
  | some currentcc =>
    if currentcc < cfg.numofchars then
      strict (getBucketfillptr cfg st currentcc - 1) fun putidx =>
      let st := setBucketfillptr cfg st currentcc putidx
      let p1 := position - 1
      match gt_sainseq_getchar cfg p1 with
      | none => none
      | some leftcontextcc =>
        let rt :=
          if st.roundtablePresent then
            let t := 2 * currentcc + (if leftcontextcc > currentcc then 1 else 0)
            if getRoundtable cfg st t < st.currentround then
              (setRoundtable cfg st t st.currentround, p1 + cfg.totallength)
            else (st, p1 + cfg.totallength)
          else (st, p1)
        strict (if leftcontextcc > currentcc then notU (rt.2 + 1) else rt.2) fun v =>
        some (setSuftab rt.1 putidx v)
    else
      some st

/-- Range loop of gt_sain_induceStypes1fromspecialranges (source lines
657-669). -/
def induceS1SpecialRanges (cfg : GtSainseqCfg) :
    GtSainState → List (Nat × Nat) → Option GtSainState
  | st, [] => some st
  | st, r :: rest =>
    let r := if GT_ISDIRREVERSE cfg.readmode then gt_range_reverse cfg.totallength r else r
    if r.1 > 1 then
      match gt_sain_special_singleSinduction1 cfg st (r.1 - 1) with
      | none => none
      | some st => induceS1SpecialRanges cfg st rest
    else
      induceS1SpecialRanges cfg st rest

/-- Embedding of gt_sain_induceStypes1fromspecialranges (source lines
645-672). -/
def gt_sain_induceStypes1fromspecialranges (cfg : GtSainseqCfg)
    (st : GtSainState) : Option GtSainState :=
  if gt_encseq_has_specialranges cfg.encseqM then
    induceS1SpecialRanges cfg st
      (gt_specialrangeList cfg.encseqM (GT_ISDIRREVERSE cfg.readmode))
  else
    some st

/-- Main right-to-left loop of gt_sain_induceStypesuffixes1 (source lines
694-742); idxp1 is one more than the slot to process, zero meaning done. -/
def induceS1Loop (cfg : GtSainseqCfg) :
    Nat → Nat → GtSainState → Option (Nat × Nat) → Option GtSainState
  | _, 0, st, _ => some st
  | 0, _, _, _ => none
  | fuel + 1, idxp1, st, bp =>
    let idx := idxp1 - 1
    let raw := getSuftab st idx
    if sPos raw then
      let st := if raw ≥ cfg.totallength then { st with currentround := st.currentround + 1 } else st
      let p0 := if raw ≥ cfg.totallength then raw - cfg.totallength else raw
      if p0 > 0 then
        match gt_sainseq_getchar cfg p0 with
        | none => none
        | some currentcc =>
          if currentcc < cfg.numofchars then
            let p1 := p0 - 1
            match gt_sainseq_getchar cfg p1 with
            | none => none
            | some leftcontextcc =>
              let rt :=
                if st.roundtablePresent then
                  let t := 2 * currentcc + (if leftcontextcc > currentcc then 1 else 0)
                  if getRoundtable cfg st t < st.currentround then
                    (setRoundtable cfg st t st.currentround, p1 + cfg.totallength)
                  else (st, p1)
                else (st, p1)
              let u := gt_sain_updatebucketptr cfg rt.1 bp currentcc
              strict (u.2.1 - 1) fun putidx =>
              strict (if leftcontextcc > currentcc then notU (rt.2 + 1) else rt.2) fun v =>
              let st := setSuftab u.1 putidx v
              let st := setSuftab st idx 0
              induceS1Loop cfg fuel idx st (some (putidx, u.2.2))
          else
            induceS1Loop cfg fuel idx (setSuftab st idx 0) bp
      else
        induceS1Loop cfg fuel idx (setSuftab st idx 0) bp
    else
      induceS1Loop cfg fuel idx st bp

/-- Embedding of gt_sain_induceStypesuffixes1 (source lines 674-743). -/
def gt_sain_induceStypesuffixes1 (cfg : GtSainseqCfg) (st : GtSainState)
    (nonspecialentries : Nat) : Option GtSainState :=
  match gt_sain_special_singleSinduction1 cfg st (cfg.totallength - 1) with
  | none => none
  | some st =>
    let step2 :=
      if cfg.seqtype = GtSainSeqtype.encseq then
        gt_sain_induceStypes1fromspecialranges cfg st
      else
        some st
    match step2 with
    | none => none
    | some st =>
      if nonspecialentries = 0 then some st
      else induceS1Loop cfg (nonspecialentries + 1) nonspecialentries st none

/-- First loop of gt_sain_moveSstar2front (source lines 752-757): un-tag
the leading run of negative entries; returns the first index holding a
non-negative value.  Fuel exhaustion models the out-of-bounds scan the C
code would perform if fewer tagged entries existed than asserted. -/
def moveSstarPhase1 : Nat → Nat → GtSainState → Option (Nat × GtSainState)
  | 0, _, _ => none
  | fuel + 1, readidx, st =>
    let raw := getSuftab st readidx
    if sNeg raw then
      strict (notU raw) fun v =>
      moveSstarPhase1 fuel (readidx + 1) (setSuftab st readidx v)
    else
      some (readidx, st)

/-- Second loop of gt_sain_moveSstar2front (source lines 760-777): compact
the remaining tagged entries to the front, zeroing what is left behind,
until countSstartype entries have been written. -/
def moveSstarPhase2 (count : Nat) : Nat → Nat → Nat → GtSainState → Option GtSainState
  | 0, _, _, _ => none
  | fuel + 1, writeidx, readidx, st =>
    let raw := getSuftab st readidx
    if sNeg raw then
      strict (notU raw) fun v =>
      let st := setSuftab st writeidx v
      let st := setSuftab st readidx 0
      if writeidx + 1 = count then some st
      else moveSstarPhase2 count fuel (writeidx + 1) (readidx + 1) st
    else
      moveSstarPhase2 count fuel writeidx (readidx + 1) (setSuftab st readidx 0)

/-- Embedding of gt_sain_moveSstar2front (source lines 745-783). -/
def gt_sain_moveSstar2front (count : Nat) (st : GtSainState) : Option GtSainState :=
  match moveSstarPhase1 (st.suftabentries + 2) 0 st with
  | none => none
  | some r =>
    if r.1 < count then
      moveSstarPhase2 count (st.suftabentries + 2) r.1 (r.1 + 1) r.2
    else
      some r.2

/-- First loop of gt_sain_simple_moveSstar2front (source lines 794-803):
as moveSstarPhase1 but counting round-tagged values, which it keeps. -/
def simpleMoveSstarPhase1 (totallength : Nat) :
    Nat → Nat → Nat → GtSainState → Option (Nat × Nat × GtSainState)
  | 0, _, _, _ => none
  | fuel + 1, readidx, namecount, st =>
    let raw := getSuftab st readidx
    if sNeg raw then
      strict (notU raw) fun position =>
      strict (if position ≥ totallength then namecount + 1 else namecount) fun namecount =>
      simpleMoveSstarPhase1 totallength fuel (readidx + 1) namecount
        (setSuftab st readidx position)
    else
      some (readidx, namecount, st)

/-- Second loop of gt_sain_simple_moveSstar2front (source lines 806-827). -/
def simpleMoveSstarPhase2 (totallength count : Nat) :
    Nat → Nat → Nat → Nat → GtSainState → Option (Nat × GtSainState)
  | 0, _, _, _, _ => none
  | fuel + 1, writeidx, readidx, namecount, st =>
    let raw := getSuftab st readidx
    if sNeg raw then
      strict (notU raw) fun position =>
      strict (if position ≥ totallength then namecount + 1 else namecount) fun namecount =>
      let st := setSuftab st writeidx position
      let st := setSuftab st readidx 0
      if writeidx + 1 = count then some (namecount, st)
      else simpleMoveSstarPhase2 totallength count fuel (writeidx + 1) (readidx + 1) namecount st
    else
      simpleMoveSstarPhase2 totallength count fuel writeidx (readidx + 1) namecount
        (setSuftab st readidx 0)

/-- Embedding of gt_sain_simple_moveSstar2front (source lines 785-834);
returns the tally of round-tagged entries, which is the name count of the
fast variant. -/
def gt_sain_simple_moveSstar2front (totallength count : Nat)
    (st : GtSainState) : Option (Nat × GtSainState) :=
  match simpleMoveSstarPhase1 totallength (st.suftabentries + 2) 0 0 st with
  | none => none
  | some r =>
    if r.1 < count then
      simpleMoveSstarPhase2 totallength count (st.suftabentries + 2) r.1 (r.1 + 1) r.2.1 r.2.2
    else
      some (r.2.1, r.2.2)

/-- Descending loop of gt_sain_simple_assignSstarnames (source lines
848-863), walking the whole nonspecial prefix and writing names into the
second half; the round tags of the compacted entries drive the name
decrements, and the suftab entries themselves are left unchanged. -/
def simpleAssignNamesDesc (totallength count numberofnames : Nat) :
    Nat → Nat → GtSainState → GtSainState
  | 0, _, st => st
  | fuel + 1, currentname, st =>
    let idx := fuel
    let position := getSuftab st idx
    strict (if position ≥ totallength then position - totallength else position) fun p =>
    strict (if position ≥ totallength then currentname - 1 else currentname) fun cn =>
    let st :=
      if cn ≤ numberofnames then setSuftab st (count + p / 2) cn else st
    simpleAssignNamesDesc totallength count numberofnames fuel cn st

/-- Ascending tag-stripping loop of gt_sain_simple_assignSstarnames
(source lines 866-873), used when every name is unique. -/
def simpleAssignNamesAsc (totallength : Nat) : Nat → Nat → GtSainState → GtSainState
  | 0, _, st => st
  | fuel + 1, idx, st =>
    let raw := getSuftab st idx
    let st :=
      if raw ≥ totallength then
        strict (raw - totallength) fun v => setSuftab st idx v
      else st
    simpleAssignNamesAsc totallength fuel (idx + 1) st

/-- Embedding of gt_sain_simple_assignSstarnames (source lines 836-875). -/
def gt_sain_simple_assignSstarnames (totallength count numberofnames
    nonspecialentries : Nat) (st : GtSainState) : GtSainState :=
  if numberofnames < count then
    simpleAssignNamesDesc totallength count numberofnames nonspecialentries
      (numberofnames + 1) st
  else
    simpleAssignNamesAsc totallength nonspecialentries 0 st

/-- Main loop of gt_sain_induceLtypesuffixes2 (source lines 884-912): every
visited slot is complemented in place, and positive old values induce the
preceding suffix into the head of its bucket. -/
def induceL2Loop (cfg : GtSainseqCfg) :
    Nat → Nat → GtSainState → Option (Nat × Nat) → Option GtSainState
  | 0, _, st, _ => some st
  | fuel + 1, idx, st, bp =>
    let raw := getSuftab st idx
    strict (notU raw) fun c =>
    let st := setSuftab st idx c
    if sPos raw then
      let p0 := raw - 1
      match gt_sainseq_getchar cfg p0 with
      | none => none
      | some currentcc =>
        if currentcc < cfg.numofchars then
          let u := gt_sain_updatebucketptr cfg st bp currentcc
          strict u.2.1 fun putidx =>
          if p0 > 0 then
            match gt_sainseq_getchar cfg (p0 - 1) with
            | none => none
            | some leftcc =>
              strict (if leftcc < currentcc then notU p0 else p0) fun v =>
              let st := setSuftab u.1 putidx v
              induceL2Loop cfg fuel (idx + 1) st (some (putidx + 1, u.2.2))
          else
            strict p0 fun p0 =>
            let st := setSuftab u.1 putidx p0
            induceL2Loop cfg fuel (idx + 1) st (some (putidx + 1, u.2.2))
        else
          induceL2Loop cfg fuel (idx + 1) st bp
    else
      induceL2Loop cfg fuel (idx + 1) st bp

/-- Embedding of gt_sain_induceLtypesuffixes2 (source lines 877-913). -/
def gt_sain_induceLtypesuffixes2 (cfg : GtSainseqCfg) (st : GtSainState)
    (nonspecialentries : Nat) : Option GtSainState :=
  induceL2Loop cfg nonspecialentries 0 st none

/-- Embedding of gt_sain_special_singleSinduction2 (source lines 915-939). -/
def gt_sain_special_singleSinduction2 (cfg : GtSainseqCfg) (st : GtSainState)
    (position : Nat) : Option GtSainState :=
  let p0 := position - 1
  match gt_sainseq_getchar cfg p0 with
  | none => none
  | some currentcc =>
    if currentcc < cfg.numofchars then
      strict (getBucketfillptr cfg st currentcc - 1) fun putidx =>
      let st := setBucketfillptr cfg st currentcc putidx
      if p0 = 0 then
        strict (notU p0) fun v => some (setSuftab st putidx v)
      else
        match gt_sainseq_getchar cfg (p0 - 1) with
        | none => none
        | some leftcc =>
          strict (if leftcc > currentcc then notU p0 else p0) fun v =>
          some (setSuftab st putidx v)
    else
      some st

/-- Range loop of gt_sain_induceStypes2fromspecialranges (source lines
954-967). -/
def induceS2SpecialRanges (cfg : GtSainseqCfg) :
    GtSainState → List (Nat × Nat) → Option GtSainState
  | st, [] => some st
  | st, r :: rest =>
    let r := if GT_ISDIRREVERSE cfg.readmode then gt_range_reverse cfg.totallength r else r
    if r.1 > 0 then
      match gt_sain_special_singleSinduction2 cfg st r.1 with
      | none => none
      | some st => induceS2SpecialRanges cfg st rest
    else
      induceS2SpecialRanges cfg st rest

/-- Embedding of gt_sain_induceStypes2fromspecialranges (source lines
941-970). -/
def gt_sain_induceStypes2fromspecialranges (cfg : GtSainseqCfg)
    (st : GtSainState) : Option GtSainState :=
  if gt_encseq_has_specialranges cfg.encseqM then
    induceS2SpecialRanges cfg st
      (gt_specialrangeList cfg.encseqM (GT_ISDIRREVERSE cfg.readmode))
  else
    some st

/-- Main right-to-left loop of gt_sain_induceStypesuffixes2 (source lines
994-1024): positive entries induce the preceding suffix into the tail of
its bucket and keep their value; all other entries are complemented. -/
def induceS2Loop (cfg : GtSainseqCfg) :
    Nat → Nat → GtSainState → Option (Nat × Nat) → Option GtSainState
  | _, 0, st, _ => some st
  | 0, _, _, _ => none
  | fuel + 1, idxp1, st, bp =>
    let idx := idxp1 - 1
    let raw := getSuftab st idx
    if sPos raw then
      let p0 := raw - 1
      match gt_sainseq_getchar cfg p0 with
      | none => none
      | some currentcc =>
        if currentcc < cfg.numofchars then
          let u := gt_sain_updatebucketptr cfg st bp currentcc
          strict (u.2.1 - 1) fun putidx =>
          if p0 = 0 then
            strict (notU p0) fun v =>
            let st := setSuftab u.1 putidx v
            induceS2Loop cfg fuel idx st (some (putidx, u.2.2))
          else
            match gt_sainseq_getchar cfg (p0 - 1) with
            | none => none
            | some leftcc =>
              strict (if leftcc > currentcc then notU p0 else p0) fun v =>
              let st := setSuftab u.1 putidx v
              induceS2Loop cfg fuel idx st (some (putidx, u.2.2))
        else
          induceS2Loop cfg fuel idx st bp
    else
      strict (notU raw) fun v =>
      induceS2Loop cfg fuel idx (setSuftab st idx v) bp

/-- Embedding of gt_sain_induceStypesuffixes2 (source lines 972-1025). -/
def gt_sain_induceStypesuffixes2 (cfg : GtSainseqCfg) (st : GtSainState)
    (nonspecialentries : Nat) : Option GtSainState :=
  match gt_sain_special_singleSinduction2 cfg st cfg.totallength with
  | none => none
  | some st =>
    let step2 :=
      if cfg.seqtype = GtSainSeqtype.encseq then
        gt_sain_induceStypes2fromspecialranges cfg st
      else
        some st
    match step2 with
    | none => none
    | some st =>
      if nonspecialentries = 0 then some st
      else induceS2Loop cfg (nonspecialentries + 1) nonspecialentries st none

/-- Comparison loop of gt_sain_compare_Sstarstrings (source lines
1038-1064); the fuel is the length bound of the LMS substring. -/
def compareSstarLoop (cfg : GtSainseqCfg) : Nat → Nat → Nat → Option Int
  | 0, _, _ => some 0
  | fuel + 1, start1, start2 =>
    if start1 = cfg.totallength then some 1
    else if start2 = cfg.totallength then some (-1)
    else
      match gt_sainseq_getchar cfg start1, gt_sainseq_getchar cfg start2 with
      | some cc1, some cc2 =>
        if cc1 < cc2 then some (-1)
        else if cc1 > cc2 then some 1
        else compareSstarLoop cfg fuel (start1 + 1) (start2 + 1)
      | _, _ => none

/-- Embedding of gt_sain_compare_Sstarstrings (source lines 1027-1066). -/
def gt_sain_compare_Sstarstrings (cfg : GtSainseqCfg) (start1 start2 len : Nat) :
    Option Int :=
  compareSstarLoop cfg len start1 start2

/-- Comparison loop of gt_sain_compare_suffixes (source lines 1068-1103);
two distinct suffixes differ within totallength steps, so the fuel at the
single call site is totallength + 2 and exhaustion cannot occur on the
distinct arguments the code asserts. -/
def compareSuffixLoop (cfg : GtSainseqCfg) : Nat → Nat → Nat → Option Int
  | 0, _, _ => none
  | fuel + 1, start1, start2 =>
    if start1 = cfg.totallength then some 1
    else if start2 = cfg.totallength then some (-1)
    else
      match gt_sainseq_getchar cfg start1, gt_sainseq_getchar cfg start2 with
      | some cc1, some cc2 =>
        if cc1 < cc2 then some (-1)
        else if cc1 > cc2 then some 1
        else compareSuffixLoop cfg fuel (start1 + 1) (start2 + 1)
      | _, _ => none

/-- Embedding of gt_sain_compare_suffixes (source lines 1068-1103). -/
def gt_sain_compare_suffixes (cfg : GtSainseqCfg) (start1 start2 : Nat) :
    Option Int :=
  compareSuffixLoop cfg (cfg.totallength + 2) start1 start2

/-- Write loop of gt_sain_setundefined (source lines 1105-1123). -/
def setundefinedLoop : Nat → Nat → GtSainState → GtSainState
  | 0, _, st => st
  | fuel + 1, idx, st =>
    strict idx fun idx =>
    setundefinedLoop fuel (idx + 1) (setSuftab st idx 0)

/-- Embedding of gt_sain_setundefined (source lines 1105-1123): zero the
inclusive range [start, endi]; the two scan directions of the C code write
the same cells, so a single ascending loop realises both. -/
def gt_sain_setundefined (_fwd : Bool) (st : GtSainState) (start endi : Nat) :
    GtSainState :=
  setundefinedLoop (endi + 1 - start) start st

/-- Reverse classification loop of gt_sain_assignSstarlength (source lines
1133-1150), writing each LMS-substring length into the second half of
suftab at base + (position + 1) / 2. -/
def assignSstarlengthLoop (cfg : GtSainseqCfg) (base : Nat) :
    Nat → Nat → Nat → Nat → Bool → GtSainState → Option GtSainState
  | 0, _, _, _, _, _ => none
  | fuel + 1, position, nextSstartypepos, nextcc, nextisStype, st =>
    match gt_sainseq_getchar cfg position with
    | none => none
    | some currentcc =>
      let currentisStype :=
        decide (currentcc < nextcc) || (decide (currentcc = nextcc) && nextisStype)
      let r :=
        if !currentisStype && nextisStype then
          strict (nextSstartypepos - position) fun len =>
          (setSuftab st (base + (position + 1) / 2) len, position + 1)
        else (st, nextSstartypepos)
      if position = 0 then some r.1
      else assignSstarlengthLoop cfg base fuel (position - 1) r.2 currentcc currentisStype r.1

/-- Embedding of gt_sain_assignSstarlength (source lines 1125-1151); base
is countSstartype, the offset of the lentab region inside suftab. -/
def gt_sain_assignSstarlength (cfg : GtSainseqCfg) (base : Nat)
    (st : GtSainState) : Option GtSainState :=
  assignSstarlengthLoop cfg base cfg.totallength (cfg.totallength - 1)
    cfg.totallength (GT_UNIQUEINT cfg.totallength) true st

/-- Naming loop of gt_sain_assignSstarnames (source lines 1162-1188). -/
def assignSstarnamesLoop (cfg : GtSainseqCfg) (count : Nat) :
    Nat → Nat → Nat → Nat → Nat → GtSainState → Option (Nat × GtSainState)
  | 0, _, _, _, currentname, st => some (currentname, st)
  | fuel + 1, idx, previouspos, previouslen, currentname, st =>
    let position := getSuftab st idx
    let currentlen := getSuftab st (count + position / 2)
    let cmpRes :=
      if previouslen = currentlen then
        gt_sain_compare_Sstarstrings cfg previouspos position currentlen
      else
        some (-1)
    match cmpRes with
    | none => none
    | some cmp =>
      strict (if cmp = -1 then currentname + 1 else currentname) fun currentname =>
      strict (count + position / 2) fun w =>
      let st := setSuftab st w currentname
      assignSstarnamesLoop cfg count fuel (idx + 1) position currentlen currentname st

/-- Embedding of gt_sain_assignSstarnames (source lines 1153-1190);
returns the largest assigned name, the number of distinct LMS substrings. -/
def gt_sain_assignSstarnames (cfg : GtSainseqCfg) (count : Nat)
    (st : GtSainState) : Option (Nat × GtSainState) :=
  let previouspos := getSuftab st 0
  let previouslen := getSuftab st (count + previouspos / 2)
  let st := setSuftab st (count + previouspos / 2) 1
  assignSstarnamesLoop cfg count (count - 1) 1 previouspos previouslen 1 st

/-- Collection loop of gt_sain_movenames2front (source lines 1200-1211). -/
def movenamesLoop : Nat → Nat → Nat → GtSainState → GtSainState
  | 0, _, _, st => st
  | fuel + 1, rptr, wptr, st =>
    let position := getSuftab st rptr
    if position > 0 then
      strict wptr fun wptr =>
      strict (position - 1) fun v =>
      movenamesLoop fuel (rptr + 1) (wptr + 1) (setSuftab st wptr v)
    else
      movenamesLoop fuel (rptr + 1) wptr st

/-- Embedding of gt_sain_movenames2front (source lines 1192-1213): pack
the nonzero names of the region [numberofsuffixes, numberofsuffixes +
totallength / 2] contiguously behind the first numberofsuffixes slots,
removing the +1 offset that distinguished them from undefined slots. -/
def gt_sain_movenames2front (numberofsuffixes totallength : Nat)
    (st : GtSainState) : GtSainState :=
  movenamesLoop (totallength / 2 + 1) numberofsuffixes numberofsuffixes st

/-- Check loop of gt_sain_checkorder (source lines 1222-1234); a violated
order makes the C code abort, modelled as none. -/
def checkorderLoop (cfg : GtSainseqCfg) (st : GtSainState) :
    Nat → Nat → Option Unit
  | 0, _ => some ()
  | fuel + 1, idx =>
    match gt_sain_compare_suffixes cfg (getSuftab st (idx - 1)) (getSuftab st idx) with
    | none => none
    | some cmp =>
      if cmp ≠ -1 then none
      else checkorderLoop cfg st fuel (idx + 1)

/-- Embedding of gt_sain_checkorder (source lines 1215-1235). -/
def gt_sain_checkorder (cfg : GtSainseqCfg) (st : GtSainState)
    (start endi : Nat) : Option Unit :=
  checkorderLoop cfg st (endi - start) (start + 1)

/-- Zero loop of the integer-backend branch of gt_sain_expandorder2original
(source lines 1256-1260), clearing both sstarfirstcharcount (which now is
the bucketfillptr storage) and bucketsize. -/
def expandZeroLoop (cfg : GtSainseqCfg) : Nat → Nat → GtSainState → GtSainState
  | 0, _, st => st
  | fuel + 1, charidx, st =>
    strict charidx fun charidx =>
    let st := setSstar cfg st charidx 0
    let st := setBucketsize cfg st charidx 0
    expandZeroLoop cfg fuel (charidx + 1) st

/-- Reverse scan of gt_sain_expandorder2original (source lines 1262-1286),
materialising the LMS positions in original order into the region starting
at numberofsuffixes and, on the integer backend, recounting bucket sizes
and Sstar first characters. -/
def expandScanLoop (cfg : GtSainseqCfg) (numberofsuffixes : Nat)
    (withdist : Bool) :
    Nat → Nat → Nat → Nat → Bool → GtSainState → Option GtSainState
  | 0, _, _, _, _, _ => none
  | fuel + 1, position, writeidx, nextcc, nextisStype, st =>
    match gt_sainseq_getchar cfg position with
    | none => none
    | some currentcc =>
      let currentisStype :=
        decide (currentcc < nextcc) || (decide (currentcc = nextcc) && nextisStype)
      let r :=
        if !currentisStype && nextisStype then
          let st :=
            if withdist then
              strict (getSstar cfg st nextcc + 1) fun n => setSstar cfg st nextcc n
            else st
          strict (numberofsuffixes + writeidx) fun w =>
          (setSuftab st w (position + 1), writeidx - 1)
        else (st, writeidx)
      let st :=
        if withdist then
          strict (getBucketsize cfg r.1 currentcc + 1) fun n =>
          setBucketsize cfg r.1 currentcc n
        else r.1
      if position = 0 then some st
      else expandScanLoop cfg numberofsuffixes withdist fuel (position - 1) r.2 currentcc currentisStype st

/-- Rewrite loop of gt_sain_expandorder2original (source lines 1287-1290):
replace each rank by the LMS position of that rank. -/
def expandRewriteLoop (numberofsuffixes : Nat) : Nat → Nat → GtSainState → GtSainState
  | 0, _, st => st
  | fuel + 1, idx, st =>
    strict idx fun idx =>
    strict (getSuftab st (numberofsuffixes + getSuftab st idx)) fun v =>
    expandRewriteLoop numberofsuffixes fuel (idx + 1) (setSuftab st idx v)

/-- Embedding of gt_sain_expandorder2original (source lines 1237-1291).
On the integer backend the sstarfirstcharcount pointer is redirected to
the bucketfillptr storage and both statistics are recomputed. -/
def gt_sain_expandorder2original (cfg : GtSainseqCfg) (numberofsuffixes : Nat)
    (st : GtSainState) : Option GtSainState :=
  let isInt := cfg.seqtype = GtSainSeqtype.intseq
  let st :=
    if isInt then
      expandZeroLoop cfg cfg.numofchars 0 { st with sstarMode := GtSstarMode.fillp }
    else st
  match expandScanLoop cfg numberofsuffixes isInt cfg.totallength
      (cfg.totallength - 1) (numberofsuffixes - 1)
      (GT_UNIQUEINT cfg.totallength) true st with
  | none => none
  | some st => some (expandRewriteLoop numberofsuffixes numberofsuffixes 0 st)

/-- Scan loop of gt_sain_determineSstarfirstchardist (source lines
1300-1313); the pointer-based loop visits positions totallength - 1 down
to 0 of the integer sequence. -/
def determineSstarLoop (cfg : GtSainseqCfg) :
    Nat → Nat → Nat → Bool → GtSainState → GtSainState
  | 0, _, _, _, st => st
  | fuel + 1, position, nextcc, nextisStype, st =>
    strict position fun position =>
    let currentcc := cfg.arrseq position
    let currentisStype :=
      decide (currentcc < nextcc) || (decide (currentcc = nextcc) && nextisStype)
    let st :=
      if !currentisStype && nextisStype then
        strict (getSstar cfg st nextcc + 1) fun n => setSstar cfg st nextcc n
      else st
    strict (getBucketsize cfg st currentcc + 1) fun n =>
    let st := setBucketsize cfg st currentcc n
    determineSstarLoop cfg fuel (position - 1) currentcc currentisStype st

/-- Embedding of gt_sain_determineSstarfirstchardist (source lines
1293-1314). -/
def gt_sain_determineSstarfirstchardist (cfg : GtSainseqCfg)
    (st : GtSainState) : GtSainState :=
  determineSstarLoop cfg cfg.totallength (cfg.totallength - 1)
    (GT_UNIQUEINT cfg.totallength) true st

/-- Block-copy loop of gt_sain_insertsortedSstarsuffixes (source lines
1334-1343). -/
def insertCopyLoop (putidx readidx : Nat) : Nat → Nat → GtSainState → GtSainState
  | 0, _, st => st
  | fuel + 1, offset, st =>
    strict offset fun offset =>
    strict (getSuftab st (readidx - offset)) fun v =>
    let st := setSuftab st (putidx - offset) v
    let st := setSuftab st (readidx - offset) 0
    insertCopyLoop putidx readidx fuel (offset + 1) st

/-- Per-character loop of gt_sain_insertsortedSstarsuffixes (source lines
1323-1361), from the largest character down to 0. -/
def insertSortedLoop (cfg : GtSainseqCfg) :
    Nat → Nat → Nat → Nat → GtSainState → GtSainState
  | 0, _, _, _, st => st
  | fuel + 1, cc, readidx, fillidx, st =>
    strict cc fun cc =>
    strict readidx fun readidx =>
    strict fillidx fun fillidx =>
    let sstarC := getSstar cfg st cc
    let st :=
      if sstarC > 0 then
        let putidx := fillidx - 1
        if readidx < putidx then insertCopyLoop putidx readidx sstarC 0 st else st
      else st
    let bsz := getBucketsize cfg st cc
    strict (fillidx - bsz) fun fillidx =>
    let st :=
      if bsz > sstarC then
        gt_sain_setundefined false st fillidx (fillidx + bsz - sstarC - 1)
      else st
    strict (readidx - sstarC) fun readidx =>
    if cc = 0 then st
    else insertSortedLoop cfg fuel (cc - 1) readidx fillidx st

/-- Embedding of gt_sain_insertsortedSstarsuffixes (source lines
1316-1362). -/
def gt_sain_insertsortedSstarsuffixes (cfg : GtSainseqCfg) (st : GtSainState)
    (readidx nonspecialentries : Nat) : GtSainState :=
  insertSortedLoop cfg cfg.numofchars (cfg.numofchars - 1) readidx
    nonspecialentries st

/-- Per-position write loop of gt_sain_filltailsuffixes (source lines
1387-1391). -/
def filltailWriteLoop (base : Nat) : Nat → Nat → Nat → GtSainState → Nat × GtSainState
  | 0, _, countspecial, st => (countspecial, st)
  | fuel + 1, idx, countspecial, st =>
    strict idx fun idx =>
    strict countspecial fun countspecial =>
    let st := setSuftab st (base + countspecial) idx
    filltailWriteLoop base fuel (idx + 1) (countspecial + 1) st

/-- Range loop of gt_sain_filltailsuffixes (source lines 1379-1392). -/
def filltailRanges (totallength base : Nat) (readmode : GtReadmode) :
    List (Nat × Nat) → Nat → GtSainState → Nat × GtSainState
  | [], countspecial, st => (countspecial, st)
  | r :: rest, countspecial, st =>
    let r := if GT_ISDIRREVERSE readmode then gt_range_reverse totallength r else r
    let w := filltailWriteLoop base (r.2 - r.1) r.1 countspecial st
    filltailRanges totallength base readmode rest w.1 w.2

/-- Embedding of gt_sain_filltailsuffixes (source lines 1364-1397); base is
nonspecialentries, the offset of suftabtail inside suftab. -/
def gt_sain_filltailsuffixes (encseq : GtEncseq) (readmode : GtReadmode)
    (base : Nat) (st : GtSainState) : GtSainState :=
  let specialcharacters := gt_encseq_specialcharacters encseq
  let totallength := gt_encseq_total_length encseq
  let st :=
    if gt_encseq_has_specialranges encseq then
      (filltailRanges totallength base readmode
        (gt_specialrangeList encseq (if GT_ISDIRREVERSE readmode then false else true))
        0 st).2
    else st
  setSuftab st (base + specialcharacters) totallength

/-- Modelled from the spec: gt_suftab_lightweightcheck is the external
order-check oracle of section 6, called only under final_check; it aborts
on violation and has no other effect, so the model is a no-op. -/
def gt_suftab_lightweightcheck (_encseq : GtEncseq) (_readmode : GtReadmode)
    (_totallength : Nat) (_st : GtSainState) : Unit := ()

/-- The GT_SAIN_SHOWTIMER macro (source lines 26-30): with a timer, each
named phase writes a progress line to stdout. -/
def timerEv (timer : Bool) (desc : String) : List GtOutput :=
  if timer then [GtOutput.timerLine desc] else []

/-- The view of the cells of a at offset start: the embedding of the
pointer a + start of C pointer arithmetic.  The recursion input
suftab + countSstartype is such a view; its cells are frozen at the call,
which is observationally equal because the recursive call does not
overwrite the viewed region before its last read. -/
def arraySlice (a : Nat → Nat) (start : Nat) : Nat → Nat :=
  fun j => a (start + j)

/-- The naming stage of gt_sain_rec_sortsuffixes (source lines 1437-1458),
run after the two phase-one inductions: either the comparing variant
(moveSstar2front, assignSstarlength, assignSstarnames) or the round-table
variant (simple_moveSstar2front, conditional free of the round table,
simple_assignSstarnames).  Returns the number of names, the state and the
timer trace. -/
def recNamingStage (cfg : GtSainseqCfg) (count nonspecialentries : Nat)
    (timer : Bool) (st : GtSainState) : Option (Nat × GtSainState × List GtOutput) :=
  if !st.roundtablePresent then
    match gt_sain_moveSstar2front count st with
    | none => none
    | some st =>
      match gt_sain_assignSstarlength cfg count st with
      | none => none
      | some st =>
        match gt_sain_assignSstarnames cfg count st with
        | none => none
        | some rn =>
          some (rn.1, rn.2,
            timerEv timer "moverStar2front" ++ timerEv timer "assignSstarlength" ++
              timerEv timer "assignSstarnames")
  else
    match gt_sain_simple_moveSstar2front cfg.totallength count st with
    | none => none
    | some rn =>
      let st :=
        if cfg.roundtableBase.isNone then { rn.2 with roundtablePresent := false }
        else rn.2
      let st := gt_sain_simple_assignSstarnames cfg.totallength count rn.1
                  nonspecialentries st
      some (rn.1, st, timerEv timer "simple_moverStar2front")

/-- The phase-two induction block of gt_sain_rec_sortsuffixes (source
lines 1516-1530): insert the sorted Sstar suffixes, induce L, induce S. -/
def recInduce2 (cfg : GtSainseqCfg) (count nonspecialentries : Nat)
    (timer : Bool) (st : GtSainState) : Option (GtSainState × List GtOutput) :=
  let st :=
    if count > 0 then
      gt_sain_insertsortedSstarsuffixes cfg st (count - 1) nonspecialentries
    else st
  let st := gt_sain_startbuckets cfg st
  match gt_sain_induceLtypesuffixes2 cfg st nonspecialentries with
  | none => none
  | some st =>
    let st := gt_sain_endbuckets cfg st
    match gt_sain_induceStypesuffixes2 cfg st nonspecialentries with
    | none => none
    | some st =>
      some (st, timerEv timer "insert sorted Sstar suffixes" ++
        timerEv timer "induce L suffixes" ++ timerEv timer "induce S suffixes")

/-- The closing block of gt_sain_rec_sortsuffixes (source lines
1531-1550): on a nonempty nonspecial prefix, the optional intermediate
order check over it, and on the encoded backend under finalcheck the tail
fill followed by the external lightweight check. -/
def recFinale (cfg : GtSainseqCfg) (nonspecialentries : Nat)
    (intermediatecheck finalcheck timer : Bool) (st : GtSainState) :
    Option (GtSainState × List GtOutput) :=
  if nonspecialentries > 0 then
    match (if intermediatecheck then gt_sain_checkorder cfg st 0 (nonspecialentries - 1)
           else some ()) with
    | none => none
    | some _ =>
      if cfg.seqtype = GtSainSeqtype.encseq && finalcheck then
        let st := gt_sain_filltailsuffixes cfg.encseqM cfg.readmode nonspecialentries st
        let _ := gt_suftab_lightweightcheck cfg.encseqM cfg.readmode cfg.totallength st
        some (st, timerEv timer "fill tail suffixes" ++ timerEv timer "check suffix order")
      else
        some (st, [])
  else
    some (st, [])

/-- The closing sequence of gt_sain_rec_sortsuffixes after the main phase
(source lines 1508-1551): the optional intermediate check over the sorted
Sstar prefix, the phase-two induction block and the finale, threading the
trace.  Factoring it out of the recursion lets the theorems below reason
about one level without unfolding the main phase. -/
def recPost (cfg : GtSainseqCfg) (count nonspecialentries : Nat)
    (intermediatecheck finalcheck timer : Bool) (trHead : List GtOutput) :
    Option (GtSainState × List GtOutput) → Option (GtSainState × List GtOutput)
  | none => none
  | some rm =>
    match (if intermediatecheck && count > 0 then
             gt_sain_checkorder cfg rm.1 0 (count - 1)
           else some ()) with
    | none => none
    | some _ =>
      match recInduce2 cfg count nonspecialentries timer rm.1 with
      | none => none
      | some ri =>
        match recFinale cfg nonspecialentries intermediatecheck finalcheck timer ri.1 with
        | none => none
        | some rf =>
          some (rf.1, trHead ++ rm.2 ++ ri.2 ++ rf.2)

/-- Embedding of gt_sain_rec_sortsuffixes (source lines 1399-1552), one
recursion level of the sort.  The fuel bounds the recursion depth, which
the C code does not need to bound because each level at least halves the
sequence; entry points pass totallength + 2, far above the actual depth.
The result pairs the final memory with the stdout trace of the level in
printing order; the opening statistics line (source line 1412) is emitted
unconditionally, before any verbose check. -/
def gt_sain_rec_sortsuffixes :
    Nat → Nat → GtSainseqCfg → GtSainState → Nat → Nat → Nat → Bool → Bool → Bool → Bool →
    Option (GtSainState × List GtOutput)
  | 0, _, _, _, _, _, _, _, _, _, _ => none
  | fuel + 1, level, cfg, st0, firstusable, nonspecialentries, suftabentries,
      intermediatecheck, finalcheck, verbose, timer =>
    match gt_saininfo_new cfg st0 with
    | none => none
    | some r1 =>
      let info := r1.1
      let trHead :=
        [GtOutput.levelLine level cfg.totallength cfg.numofchars] ++
          timerEv timer "insert Sstar suffixes" ++ r1.2.2 ++
          (if verbose then [GtOutput.sstarShow info.countSstartype cfg.totallength] else [])
      let mainRes : Option (GtSainState × List GtOutput) :=
        if info.countSstartype > 0 then
          let st := r1.2.1
          let st := if st.roundtablePresent then gt_sain_incrementfirstSstar cfg st else st
          let st := gt_sain_startbuckets cfg st
          match gt_sain_induceLtypesuffixes1 cfg st nonspecialentries with
          | none => none
          | some st =>
            let st := gt_sain_endbuckets cfg st
            match gt_sain_induceStypesuffixes1 cfg st nonspecialentries with
            | none => none
            | some st =>
              let trInd := timerEv timer "induce L suffixes" ++ timerEv timer "induce S suffixes"
              match recNamingStage cfg info.countSstartype nonspecialentries timer st with
              | none => none
              | some rn =>
                let numberofnames := rn.1
                let st := rn.2.1
                if numberofnames < info.countSstartype then
                  let st := gt_sain_setundefined true st 0 (info.countSstartype - 1)
                  let st := gt_sain_movenames2front info.countSstartype cfg.totallength st
                  let fu := if level = 0 then 2 * info.countSstartype else firstusable
                  let subseq := arraySlice st.suftab info.countSstartype
                  let ra := gt_sainseq_new_from_array subseq info.countSstartype numberofnames
                              st.suftab fu suftabentries
                  match gt_sain_rec_sortsuffixes fuel (level + 1) ra.1 ra.2.1 fu
                      info.countSstartype suftabentries intermediatecheck finalcheck
                      verbose timer with
                  | none => none
                  | some rr =>
                    let st := { st with suftab := rr.1.suftab }
                    match gt_sain_expandorder2original cfg info.countSstartype st with
                    | none => none
                    | some st =>
                      some (st, trInd ++ rn.2.2 ++ timerEv timer "movenames2front" ++
                        ra.2.2 ++ rr.2 ++ timerEv timer "expandorder2original")
                else
                  let st :=
                    if cfg.seqtype = GtSainSeqtype.intseq then
                      gt_sain_determineSstarfirstchardist cfg
                        (expandZeroLoop cfg cfg.numofchars 0
                          { st with sstarMode := GtSstarMode.fillp })
                    else st
                  some (st, trInd ++ rn.2.2)
        else
          some (r1.2.1, [])
      recPost cfg info.countSstartype nonspecialentries intermediatecheck
        finalcheck timer trHead mainRes

/-- Embedding of gt_sain_encseq_sortsuffixes (source lines 1554-1585); the
result carries the suftab contents just before the C code frees them,
together with the stdout trace. -/
def gt_sain_encseq_sortsuffixes (encseq : GtEncseq) (readmode : GtReadmode)
    (intermediatecheck finalcheck verbose timer : Bool) :
    Option ((Nat → Nat) × List GtOutput) :=
  let totallength := gt_encseq_total_length encseq
  let nonspecialentries := totallength - gt_encseq_specialcharacters encseq
  let suftabentries := totallength + 1
  let r := gt_sainseq_new_from_encseq encseq readmode
  let st := { r.2 with suftab := fun _ => 0, suftabentries }
  match gt_sain_rec_sortsuffixes (totallength + 2) 0 r.1 st 0 nonspecialentries
      suftabentries intermediatecheck finalcheck verbose timer with
  | none => none
  | some res => some (res.1.suftab, res.2)

/-- Embedding of gt_sain_plain_sortsuffixes (source lines 1587-1615); the
finalcheck argument of the recursion is hard-coded false as at source line
1606. -/
def gt_sain_plain_sortsuffixes (plainseq : Array Nat) (len : Nat)
    (intermediatecheck verbose timer : Bool) :
    Option ((Nat → Nat) × List GtOutput) :=
  let suftabentries := len + 1
  let r := gt_sainseq_new_from_plainseq plainseq len
  let st := { r.2 with suftab := fun _ => 0, suftabentries }
  match gt_sain_rec_sortsuffixes (len + 2) 0 r.1 st 0 r.1.totallength
      suftabentries intermediatecheck false verbose timer with
  | none => none
  | some res => some (res.1.suftab, res.2)

/-- The first n cells of a suftab memory, read in index order. -/
def suftabList (f : Nat → Nat) (n : Nat) : List Nat :=
  (List.range n).map f

/-- The first len entries of the final suftab of a plain-backend sort run
with the given intermediate-check flag and without verbose or timer. -/
def plainSufArray (plainseq : Array Nat) (len : Nat) (ic : Bool) : Option (List Nat) :=
  (gt_sain_plain_sortsuffixes plainseq len ic false false).map
    (fun r => suftabList r.1 len)

/-- Lexicographic suffix order exactly as claim C1 states it: the suffix of
seq starting at u precedes the one starting at v in the standard
lexicographic order of sequences, in which a proper prefix precedes its
extensions. -/
def suffixLexLessStd (seq : List Nat) (u v : Nat) : Prop :=
  List.Lex (· < ·) (seq.drop u) (seq.drop v)

/-- Suffix order under the convention the code implements (the comparator
gt_sain_compare_suffixes of source lines 1068-1103): reaching the end of
the sequence ranks above every symbol, embodied by appending the virtual
end character GT_UNIQUEINT totallength, which strictly bounds every
character the sort reads. -/
def suffixLexLessEndGreatest (seq : List Nat) (totallength u v : Nat) : Prop :=
  List.Lex (· < ·) (seq.drop u ++ [GT_UNIQUEINT totallength])
    (seq.drop v ++ [GT_UNIQUEINT totallength])

/-- The encoded sequence consisting of one single special position. -/
def encAllSpecial : GtEncseq := ⟨[none]⟩

/-- The classification scan of gt_saininfo_new run on the plain sequence
acb, as the entry point would invoke it. -/
def scanACB : Option (GtSaininfo × GtSainState × List GtOutput) :=
  gt_saininfo_new (gt_sainseq_new_from_plainseq #[97, 99, 98] 3).1
    { (gt_sainseq_new_from_plainseq #[97, 99, 98] 3).2 with
        suftab := fun _ => 0, suftabentries := 4 }

/-- An encoded sequence over the DNA alphabet with one special position,
the counting example of the bucket-size theorem. -/
def c10Enc : GtEncseq := { chars := [some 0, some 2, none, some 3] }

/-- The configuration of the plain input cb. -/
def cbCfg : GtSainseqCfg := (gt_sainseq_new_from_plainseq #[99, 98] 2).1

/-- The entry memory for the classification scan of cb, as
gt_sain_plain_sortsuffixes would build it. -/
def c9St : GtSainState :=
  { (gt_sainseq_new_from_plainseq #[99, 98] 2).2 with
      suftab := fun _ => 0, suftabentries := 3 }

/-- The write buffer that gt_sainbuffer_new builds for an alphabet of 256
symbols: 9 bits per value leave a log_bufsize of 7, a cache line of 128
values per bucket, and zeroed storage. -/
def c4Buf : GtSainbuffer :=
  { values := fun _ => 0, nextidx := fun _ => 0,
    log_bufsize := 7, buf_size := 128, numofchars := 256 }

/-- The initial loop state of the classification scan of gt_saininfo_new on
the plain input cb: the memory after gt_sain_endbuckets, the freshly built
write buffer, and the virtual end sentinel as the previous symbol. -/
def c4Scan0 : GtScanState :=
  { st := gt_sain_endbuckets cbCfg c9St,
    buf := (gt_sainbuffer_new cbCfg.numofchars).1,
    countSstartype := 0,
    nextcc := GT_UNIQUEINT cbCfg.totallength,
    nextisStype := true }

/-- The scan state the program reaches on cb just before processing
position 0: the step at position 1 classified symbol b = 98 S-type and
left the memory and the write buffer untouched. -/
def c4ScanState : GtScanState :=
  { st := gt_sain_endbuckets cbCfg c9St,
    buf := (gt_sainbuffer_new cbCfg.numofchars).1,
    countSstartype := 0, nextcc := 98, nextisStype := true }

/-- The scan state after the step of the cb scan at position 0, extracted
from the step itself. -/
def c4Step1 : GtScanState :=
  (gt_saininfo_step cbCfg 0 c4ScanState).getD c4ScanState

/-- strict is the identity sequencing combinator. -/
theorem strict_eq {α : Sort u} (n : Nat) (k : Nat → α) : strict n k = k n := by
  cases n <;> rfl

/-- C5 counterexample: the spec scenario for the byte input banana is
refuted by the code.  The run returns [1, 3, 5, 0, 2, 4], not the
[5, 3, 1, 0, 4, 2] the claim states; the code sorts under the convention
of its own comparator, in which a suffix that reaches the end of the
sequence compares greater, so among the suffixes sharing the prefix a the
longest comes first. -/
theorem C5_banana_counterexample :
    plainSufArray #[98, 97, 110, 97, 110, 97] 6 false = some [1, 3, 5, 0, 2, 4] ∧
      (plainSufArray #[98, 97, 110, 97, 110, 97] 6 false = some [5, 3, 1, 0, 4, 2] → False) := by
  have h1 : plainSufArray #[98, 97, 110, 97, 110, 97] 6 false = some [1, 3, 5, 0, 2, 4] := by
    decide
  exact ⟨h1, fun h => absurd (h1.symm.trans h) (by decide)⟩

/-- C5 as amended: gt_sain_plain_sortsuffixes computes for banana,
mississippi and abracadabra the suffix arrays [1,3,5,0,2,4],
[7,4,1,10,0,9,8,6,3,5,2] and [0,7,3,5,10,1,8,4,6,2,9] respectively, the
lexicographic orders under the convention of the source comparator in
which reaching the sequence end compares greater than any symbol. -/
theorem C5_amended_scenarios :
    plainSufArray #[98, 97, 110, 97, 110, 97] 6 false = some [1, 3, 5, 0, 2, 4] ∧
      plainSufArray #[109, 105, 115, 115, 105, 115, 115, 105, 112, 112, 105] 11 false =
        some [7, 4, 1, 10, 0, 9, 8, 6, 3, 5, 2] ∧
      plainSufArray #[97, 98, 114, 97, 99, 97, 100, 97, 98, 114, 97] 11 false =
        some [0, 7, 3, 5, 10, 1, 8, 4, 6, 2, 9] := by
  exact ⟨by decide, by decide, by decide⟩

/-- C2: evaluation at the failing input.  On the encoded sequence of
length 1 whose only position is special, run with final_check set, the
sort leaves suftab as the two zeros of its calloc, because the guard
nonspecialentries greater 0 at source line 1531 skips
gt_sain_filltailsuffixes entirely; the claim requires SUF[0..1] to be the
permutation [0, 1] with SUF[1] = 1. -/
theorem C2_allspecial_skips_tailfill :
    (gt_sain_encseq_sortsuffixes encAllSpecial GtReadmode.forward false true false false).map
        (fun r => suftabList r.1 2) = some [0, 0] := by
  decide

/-- C7: evaluation at the failing input.  On the empty plain input the
scan of gt_saininfo_new starts at position totallength - 1 computed in
unsigned arithmetic, which wraps to 2 ^ 64 - 1, and the very first
character access is out of bounds; both the scan and the whole entry
point are modelled as none. -/
theorem C7_empty_input_out_of_bounds :
    gt_sain_plain_sortsuffixes #[] 0 false false false = none ∧
      gt_saininfo_new (gt_sainseq_new_from_plainseq #[] 0).1
        { (gt_sainseq_new_from_plainseq #[] 0).2 with
            suftab := fun _ => 0, suftabentries := 1 } = none := by
  exact ⟨rfl, rfl⟩

/-- C8: evaluation at the failing input.  A top-level plain sort of ab
with verbose unset and no timer still writes two stdout lines: the
unconditional per-level statistics printf of source line 1412 and the
buffer-size printf of source line 328; the claim requires no stdout
output at all in this configuration. -/
theorem C8_stdout_despite_no_verbose :
    (gt_sain_plain_sortsuffixes #[97, 98] 2 false false false).map (fun r => r.2) =
      some [GtOutput.levelLine 0 2 256, GtOutput.bufferUsed 32768 128] := by
  decide

/-- C3 counterexample: the round-table decision does not test the alphabet
size.  For the plain backend the alphabet size is 256 and the claim
predicate sigma below FIRSTTWOBITS and length above 1024 holds at length
2 ^ 62, yet the constructor leaves the round table NULL because
gt_sain_decideforfastmethod is called with maxvalue len + 1, which reaches
FIRSTTWOBITS.  The length-only field of the constructor is evaluated
without touching the sequence, mirroring the C code, where the decision
precedes the counting loop. -/
theorem C3_counterexample :
    ((256 < GT_FIRSTTWOBITS ∧ 2 ^ 62 > 1024) ∧
      (gt_sainseq_new_from_plainseq #[] (2 ^ 62)).2.roundtablePresent = false) := by
  exact ⟨by decide, by decide⟩

/-- Bucket-size writes do not touch the roundtablePresent field. -/
theorem setBucketsize_roundtablePresent (cfg : GtSainseqCfg) (st : GtSainState)
    (i v : Nat) : (setBucketsize cfg st i v).roundtablePresent = st.roundtablePresent := by
  cases h : cfg.bucketsizeBase <;> simp [setBucketsize, h]

/-- The zeroing loop of gt_sainseq_new_from_array does not touch the
roundtablePresent field. -/
theorem arrZeroLoop_roundtablePresent (cfg : GtSainseqCfg) :
    ∀ (fuel idx : Nat) (st : GtSainState),
      (arrZeroLoop cfg fuel idx st).roundtablePresent = st.roundtablePresent := by
  intro fuel
  induction fuel with
  | zero => intro idx st; rfl
  | succ n ih =>
    intro idx st
    simp only [arrZeroLoop, strict_eq, ih, setBucketsize_roundtablePresent]

/-- The counting loop of gt_sainseq_new_from_array does not touch the
roundtablePresent field. -/
theorem arrCountLoop_roundtablePresent (arr : Nat → Nat) (cfg : GtSainseqCfg) :
    ∀ (fuel idx : Nat) (st : GtSainState),
      (arrCountLoop arr cfg fuel idx st).roundtablePresent = st.roundtablePresent := by
  intro fuel
  induction fuel with
  | zero => intro idx st; rfl
  | succ n ih =>
    intro idx st
    simp only [arrCountLoop, strict_eq, ih, setBucketsize_roundtablePresent]

/-- C3 as amended: in every constructor the round table is allocated if
and only if gt_sain_decideforfastmethod maxvalue len holds, where maxvalue
is len + 1 for the plain and integer backends and totallength +
GT_COMPAREOFFSET for the encoded backend; the alphabet size does not enter
the predicate.  When the predicate is false the round table is NULL, and
gt_sain_rec_sortsuffixes selects the comparing naming stage exactly when
the round table is NULL (the branch of recNamingStage). -/
theorem C3_amended_roundtable_decision :
    (∀ (plainseq : Array Nat) (len : Nat),
        (gt_sainseq_new_from_plainseq plainseq len).2.roundtablePresent =
          gt_sain_decideforfastmethod (len + 1) len) ∧
      (∀ (e : GtEncseq) (rm : GtReadmode),
        (gt_sainseq_new_from_encseq e rm).2.roundtablePresent =
          gt_sain_decideforfastmethod
            (gt_encseq_total_length e + GT_COMPAREOFFSET) (gt_encseq_total_length e)) ∧
      (∀ (arr : Nat → Nat) (len numofchars : Nat) (suftab : Nat → Nat)
          (firstusable suftabentries : Nat),
        (gt_sainseq_new_from_array arr len numofchars suftab
            firstusable suftabentries).2.1.roundtablePresent =
          gt_sain_decideforfastmethod (len + 1) len) := by
  refine ⟨fun _ _ => rfl, fun _ _ => rfl, fun arr len numofchars suftab fu se => ?_⟩
  show (arrCountLoop arr _ len 0 (arrZeroLoop _ numofchars 0 _)).roundtablePresent = _
  rw [arrCountLoop_roundtablePresent, arrZeroLoop_roundtablePresent]

/-- Writing a memory cell and reading it back yields the written value. -/
theorem updFn_self (f : Nat → Nat) (i v : Nat) : updFn f i v i = v := by
  simp [updFn]

/-- C4 counterexample: the classification scan run on the plain input acb
finds the single LMS position 2 (with p = 1 the L-type position to its
left) and next symbol b; the decremented tail fill pointer of bucket b is
slot 1, and the claim says the value written there is p + 1 = 2, but after
the scan (buffer flushed) the slot holds p = 1. -/
theorem C4_counterexample :
    scanACB.map (fun r => (r.1.countSstartype, r.2.1.suftab 1)) = some (1, 1) ∧
      (scanACB.map (fun r => r.2.1.suftab 1) = some 2 → False) :=
  ⟨by decide, fun h => absurd h (by decide)⟩

/-- Writing a bucket fill pointer never changes sstarfirstcharcount. -/
theorem setBucketfillptr_sstar (cfg : GtSainseqCfg) (st : GtSainState) (i v : Nat) :
    (setBucketfillptr cfg st i v).sstar = st.sstar := by
  cases h : cfg.bucketfillptrBase <;> simp [setBucketfillptr, h]

/-- The descending burst copy only writes suftab cells, so it preserves
sstarfirstcharcount. -/
theorem sainbufferBurst_sstar (fuel : Nat) : ∀ (st : GtSainState) (w r : Nat)
    (values : Nat → Nat), (sainbufferBurst fuel st w r values).sstar = st.sstar := by
  induction fuel with
  | zero => intro st w r values; rfl
  | succ n ih =>
    intro st w r values
    simp only [sainbufferBurst, strict_eq]
    rw [ih]
    rfl

/-- The last cell written by the descending burst copy: with fuel many
writes going down from writeidx, the cell writeidx - (fuel - 1) receives
the value read at readidx + (fuel - 1), provided the descending write
indices do not wrap at zero. -/
theorem sainbufferBurst_last (fuel : Nat) :
    0 < fuel → ∀ (st : GtSainState) (w r : Nat) (values : Nat → Nat),
      fuel - 1 ≤ w →
      (sainbufferBurst fuel st w r values).suftab (w - (fuel - 1)) =
        values (r + (fuel - 1)) := by
  induction fuel with
  | zero => intro h; exact absurd h (by decide)
  | succ n ih =>
    intro _ st w r values hw
    simp only [sainbufferBurst, strict_eq]
    cases n with
    | zero =>
      simp only [sainbufferBurst]
      show (setSuftab st w (values r)).suftab (w - 0) = values (r + 0)
      simp [setSuftab, updFn]
    | succ m =>
      have h1 : 0 < m + 1 := Nat.succ_pos m
      have h2 : (m + 1) - 1 ≤ w - 1 := by omega
      have hrec := ih h1 (setSuftab st w (values r)) (w - 1) (r + 1) values h2
      have e1 : w - 1 - ((m + 1) - 1) = w - ((m + 1 + 1) - 1) := by omega
      have e2 : r + 1 + ((m + 1) - 1) = r + ((m + 1 + 1) - 1) := by omega
      rw [e1, e2] at hrec
      exact hrec

/-- C4 as amended: when the scan is at an L-type position p whose right
neighbour is S-type (so p + 1 is LMS), the step increments countSstartype
and seeds the LMS suffix with the value p, one less than the LMS position,
in every configuration the program builds.  With a write buffer present
and a free cache cell, the seed p is recorded in the cache line of the
bucket of the LMS symbol and the memory is left alone, whether
sstarfirstcharcount is a separate allocation (then it is incremented at
that symbol) or NULL (then it is untouched); with a write buffer whose
cache line becomes full, the line is written back and the seed p lands in
SUF at the tail fill pointer of that bucket decremented by the line size,
which becomes the new fill pointer; without a write buffer the seed p is
written directly into SUF at the tail fill pointer decremented by one. -/
theorem C4_amended_scan_step (cfg : GtSainseqCfg) (s : GtScanState) (position c : Nat)
    (hc : gt_sainseq_getchar cfg position = some c)
    (hL : (decide (c < s.nextcc) || (decide (c = s.nextcc) && s.nextisStype)) = false)
    (hS : s.nextisStype = true) :
    (∀ buf s1, s.buf = some buf → s.st.sstarMode = GtSstarMode.own →
        buf.nextidx s.nextcc < buf.buf_size - 1 →
        gt_saininfo_step cfg position s = some s1 →
        s1.countSstartype = s.countSstartype + 1
          ∧ s1.st.sstar s.nextcc = s.st.sstar s.nextcc + 1
          ∧ s1.st.suftab = s.st.suftab
          ∧ s1.st.bucketfillptr = s.st.bucketfillptr
          ∧ ∃ buf1, s1.buf = some buf1
              ∧ buf1.values ((s.nextcc <<< buf.log_bufsize) + buf.nextidx s.nextcc)
                  = position
              ∧ buf1.nextidx s.nextcc = buf.nextidx s.nextcc + 1)
    ∧ (∀ buf s1, s.buf = some buf → s.st.sstarMode = GtSstarMode.nullp →
        buf.nextidx s.nextcc < buf.buf_size - 1 →
        gt_saininfo_step cfg position s = some s1 →
        s1.countSstartype = s.countSstartype + 1
          ∧ s1.st.sstar = s.st.sstar
          ∧ s1.st.suftab = s.st.suftab
          ∧ s1.st.bucketfillptr = s.st.bucketfillptr
          ∧ ∃ buf1, s1.buf = some buf1
              ∧ buf1.values ((s.nextcc <<< buf.log_bufsize) + buf.nextidx s.nextcc)
                  = position
              ∧ buf1.nextidx s.nextcc = buf.nextidx s.nextcc + 1)
    ∧ (∀ buf s1, s.buf = some buf → s.st.sstarMode = GtSstarMode.own →
        cfg.bucketfillptrBase = none →
        buf.nextidx s.nextcc = buf.buf_size - 1 →
        0 < buf.buf_size →
        buf.buf_size ≤ getBucketfillptr cfg s.st s.nextcc →
        gt_saininfo_step cfg position s = some s1 →
        s1.countSstartype = s.countSstartype + 1
          ∧ s1.st.sstar s.nextcc = s.st.sstar s.nextcc + 1
          ∧ s1.st.suftab (getBucketfillptr cfg s.st s.nextcc - buf.buf_size) = position
          ∧ getBucketfillptr cfg s1.st s.nextcc
              = getBucketfillptr cfg s.st s.nextcc - buf.buf_size)
    ∧ (∀ s1, s.buf = none → s.st.sstarMode = GtSstarMode.nullp →
        gt_saininfo_step cfg position s = some s1 →
        s1.countSstartype = s.countSstartype + 1
          ∧ s1.st.sstar = s.st.sstar
          ∧ s1.st.suftab (getBucketfillptr cfg s.st s.nextcc - 1) = position) := by
  have hL' : (decide (c < s.nextcc) || (decide (c = s.nextcc) && true)) = false := by
    rw [← hS]; exact hL
  refine ⟨?_, ?_, ?_, ?_⟩
  · intro buf s1 hbuf hown hni hstep
    simp only [gt_saininfo_step, strict_eq, hc, hS, hL', hbuf, Bool.not_false,
      Bool.true_and, if_true, sstarTracked, hown, setSstar, getSstar,
      gt_sainbuffer_update] at hstep
    rw [if_pos hni] at hstep
    injection hstep with h2
    subst h2
    refine ⟨rfl, updFn_self _ _ _, rfl, rfl, ⟨_, rfl, updFn_self _ _ _, updFn_self _ _ _⟩⟩
  · intro buf s1 hbuf hnull hni hstep
    simp only [gt_saininfo_step, strict_eq, hc, hS, hL', hbuf, Bool.not_false,
      Bool.true_and, if_true, sstarTracked, hnull, Bool.false_eq_true, if_false,
      gt_sainbuffer_update] at hstep
    rw [if_pos hni] at hstep
    injection hstep with h2
    subst h2
    refine ⟨rfl, rfl, rfl, rfl, ⟨_, rfl, updFn_self _ _ _, updFn_self _ _ _⟩⟩
  · intro buf s1 hbuf hown hfill hfull hpos hfp hstep
    simp only [gt_saininfo_step, strict_eq, hc, hS, hL', hbuf, Bool.not_false,
      Bool.true_and, if_true, sstarTracked, hown, setSstar, getSstar,
      gt_sainbuffer_update] at hstep
    rw [hfull, if_neg (lt_irrefl _)] at hstep
    simp only [strict_eq, getBucketfillptr, hfill, setBucketfillptr] at hstep
    injection hstep with h2
    subst h2
    have hfp2 : buf.buf_size ≤ s.st.bucketfillptr s.nextcc := by
      simpa [getBucketfillptr, hfill] using hfp
    refine ⟨rfl, ?_, ?_, ?_⟩
    · show (sainbufferBurst buf.buf_size _ _ _ _).sstar s.nextcc = _
      rw [sainbufferBurst_sstar]
      exact updFn_self _ _ _
    · simp only [getBucketfillptr, hfill]
      have e1 : s.st.bucketfillptr s.nextcc - buf.buf_size
          = s.st.bucketfillptr s.nextcc - 1 - (buf.buf_size - 1) := by omega
      rw [e1, sainbufferBurst_last buf.buf_size hpos]
      · exact updFn_self _ _ _
      · omega
    · simp only [getBucketfillptr, hfill]
      exact updFn_self _ _ _
  · intro s1 hbuf hnull hstep
    simp only [gt_saininfo_step, strict_eq, hc, hS, hL', hbuf, Bool.not_false,
      Bool.true_and, if_true, sstarTracked, hnull, Bool.false_eq_true, if_false,
      setSuftab] at hstep
    injection hstep with h2
    subst h2
    refine ⟨rfl, ?_, updFn_self _ _ _⟩
    exact setBucketfillptr_sstar cfg s.st s.nextcc _

/-- Witness for C4 as amended: the scan of the plain input cb, in the
configuration the program builds (write buffer of gt_sainbuffer_new
present, sstarfirstcharcount a separate allocation), reaches c4ScanState
after its step at position 1, and the theorem applied there at position 0
with symbol c = 99 gives the buffered seeding concretely: the step stores
the seed 0 in the first cache cell of the bucket of symbol 98 and advances
its cache index to 1, leaving suftab and the fill pointers alone. -/
theorem C4_amended_scan_step_witness :
    (gt_sainseq_getchar cbCfg 0 = some 99
      ∧ (decide (99 < c4ScanState.nextcc)
          || (decide (99 = c4ScanState.nextcc) && c4ScanState.nextisStype)) = false
      ∧ c4ScanState.nextisStype = true)
    ∧ (gt_saininfo_step cbCfg 1 c4Scan0 = some c4ScanState
      ∧ c4ScanState.buf = some c4Buf
      ∧ c4ScanState.st.sstarMode = GtSstarMode.own
      ∧ c4Buf.nextidx c4ScanState.nextcc < c4Buf.buf_size - 1
      ∧ gt_saininfo_step cbCfg 0 c4ScanState = some c4Step1)
    ∧ (c4Step1.countSstartype = c4ScanState.countSstartype + 1
      ∧ c4Step1.st.sstar c4ScanState.nextcc = c4ScanState.st.sstar c4ScanState.nextcc + 1
      ∧ c4Step1.st.suftab = c4ScanState.st.suftab
      ∧ c4Step1.st.bucketfillptr = c4ScanState.st.bucketfillptr
      ∧ ∃ buf1, c4Step1.buf = some buf1
          ∧ buf1.values ((c4ScanState.nextcc <<< c4Buf.log_bufsize)
              + c4Buf.nextidx c4ScanState.nextcc) = 0
          ∧ buf1.nextidx c4ScanState.nextcc = c4Buf.nextidx c4ScanState.nextcc + 1) :=
  ⟨⟨by decide, by decide, rfl⟩,
    ⟨rfl, rfl, rfl, by decide, rfl⟩,
    (C4_amended_scan_step cbCfg c4ScanState 0 99 (by decide) (by decide) rfl).1
      c4Buf c4Step1 rfl rfl (by decide) rfl⟩

/-- Count of index positions whose stored symbol satisfies P equals the
countP of the stored list itself. -/
theorem countP_range_getD (l : List (Option Nat)) (P : Option Nat → Bool) :
    (List.range l.length).countP (fun i => P (l.getD i none)) = l.countP P := by
  induction l with
  | nil => rfl
  | cons x xs ih =>
    rw [List.length_cons, List.range_succ_eq_map, List.countP_cons, List.countP_map,
      List.countP_cons]
    have h : ((fun i => P ((x :: xs).getD i none)) ∘ (· + 1))
        = (fun i => P (xs.getD i none)) := rfl
    rw [h, ih]
    rfl

/-- Counting over the index range is invariant under the reversal map. -/
theorem countP_range_rev (n : Nat) (f : Nat → Bool) :
    (List.range n).countP (fun i => f (n - 1 - i)) = (List.range n).countP f := by
  have h : (List.range n).map (fun i => n - 1 - i) = (List.range n).reverse := by
    rw [List.range_eq_range', List.reverse_range']
    simp [List.range_eq_range']
  have h2 : ((List.range n).map (fun i => n - 1 - i)).countP f
      = (List.range n).countP (fun i => f (n - 1 - i)) := by
    rw [List.countP_map]
    rfl
  rw [← h2, h, List.countP_reverse]

/-- Complement equation on four-symbol codes. -/
theorem complBeqSwap (v c : Nat) (hv : v < 4) (hc : c < 4) :
    ((3 - v : Nat) == c) = (v == 3 - c) := by
  interval_cases v <;> interval_cases c <;> rfl

/-- C10: the encoded-sequence constructor fills bucketsize[c] with the
stored count of the complement base under a complement read mode and with
the stored count of c itself otherwise, and in both cases this equals the
number of read positions whose encoded character is c under the requested
read mode. -/
theorem C10_encseq_bucketsizes (e : GtEncseq) (rm : GtReadmode) (c : Nat)
    (hc : c < 4)
    (hwf : ∀ x ∈ e.chars, ∀ v, x = some v → v < 4) :
    getBucketsize (gt_sainseq_new_from_encseq e rm).1 (gt_sainseq_new_from_encseq e rm).2 c
        = (if GT_ISDIRCOMPLEMENT rm then gt_encseq_charcount e (GT_COMPLEMENTBASE c)
            else gt_encseq_charcount e c)
      ∧ getBucketsize (gt_sainseq_new_from_encseq e rm).1 (gt_sainseq_new_from_encseq e rm).2 c
        = (List.range (gt_encseq_total_length e)).countP
            (fun p => gt_encseq_get_encoded_char e p rm == some (some c)) := by
  have hA : getBucketsize (gt_sainseq_new_from_encseq e rm).1
        (gt_sainseq_new_from_encseq e rm).2 c
      = (if GT_ISDIRCOMPLEMENT rm then gt_encseq_charcount e (GT_COMPLEMENTBASE c)
          else gt_encseq_charcount e c) := by
    interval_cases c <;> cases rm <;> rfl
  refine ⟨hA, hA.trans ?_⟩
  have hmemv : ∀ p, p < e.chars.length → ∀ v, e.chars.getD p none = some v → v < 4 := by
    intro p hlt v hv
    have h1 : e.chars.getD p none ∈ e.chars := by
      rw [List.getD_eq_getElem e.chars none hlt]
      exact List.getElem_mem hlt
    exact hwf _ h1 v hv
  cases rm with
  | forward =>
    show gt_encseq_charcount e c = _
    have hp : ∀ p ∈ List.range e.chars.length,
        (e.chars.getD p none == some c)
          = (gt_encseq_get_encoded_char e p GtReadmode.forward == some (some c)) := by
      intro p hmem
      have hlt : p < e.chars.length := List.mem_range.mp hmem
      show _ = ((if p < e.chars.length then some (e.chars.getD p none) else none)
            == some (some c))
      rw [if_pos hlt]
      rfl
    calc gt_encseq_charcount e c
        = (List.range e.chars.length).countP (fun i => e.chars.getD i none == some c) :=
          (countP_range_getD e.chars (fun x => x == some c)).symm
      _ = (List.range e.chars.length).countP
            (fun p => gt_encseq_get_encoded_char e p GtReadmode.forward == some (some c)) :=
          List.countP_congr (fun p hmem => by rw [hp p hmem])
  | reverse =>
    show gt_encseq_charcount e c = _
    have hp : ∀ p ∈ List.range e.chars.length,
        (e.chars.getD (e.chars.length - 1 - p) none == some c)
          = (gt_encseq_get_encoded_char e p GtReadmode.reverse == some (some c)) := by
      intro p hmem
      have hlt : p < e.chars.length := List.mem_range.mp hmem
      show _ = ((if p < e.chars.length then
            some (e.chars.getD (e.chars.length - 1 - p) none) else none)
            == some (some c))
      rw [if_pos hlt]
      rfl
    calc gt_encseq_charcount e c
        = (List.range e.chars.length).countP (fun i => e.chars.getD i none == some c) :=
          (countP_range_getD e.chars (fun x => x == some c)).symm
      _ = (List.range e.chars.length).countP
            (fun p => e.chars.getD (e.chars.length - 1 - p) none == some c) :=
          (countP_range_rev e.chars.length
            (fun i => e.chars.getD i none == some c)).symm
      _ = (List.range e.chars.length).countP
            (fun p => gt_encseq_get_encoded_char e p GtReadmode.reverse == some (some c)) :=
          List.countP_congr (fun p hmem => by rw [hp p hmem])
  | compl =>
    show gt_encseq_charcount e (3 - c) = _
    have hp : ∀ p ∈ List.range e.chars.length,
        (e.chars.getD p none == some (3 - c))
          = (gt_encseq_get_encoded_char e p GtReadmode.compl == some (some c)) := by
      intro p hmem
      have hlt : p < e.chars.length := List.mem_range.mp hmem
      show _ = ((if p < e.chars.length then
            some ((e.chars.getD p none).map GT_COMPLEMENTBASE) else none)
            == some (some c))
      rw [if_pos hlt]
      match hx : e.chars.getD p none with
      | none => rfl
      | some v =>
        have hv : v < 4 := hmemv p hlt v hx
        show (v == 3 - c) = ((3 - v : Nat) == c)
        exact (complBeqSwap v c hv hc).symm
    calc gt_encseq_charcount e (3 - c)
        = (List.range e.chars.length).countP
            (fun i => e.chars.getD i none == some (3 - c)) :=
          (countP_range_getD e.chars (fun x => x == some (3 - c))).symm
      _ = (List.range e.chars.length).countP
            (fun p => gt_encseq_get_encoded_char e p GtReadmode.compl == some (some c)) :=
          List.countP_congr (fun p hmem => by rw [hp p hmem])
  | revcompl =>
    show gt_encseq_charcount e (3 - c) = _
    have hp : ∀ p ∈ List.range e.chars.length,
        (e.chars.getD (e.chars.length - 1 - p) none == some (3 - c))
          = (gt_encseq_get_encoded_char e p GtReadmode.revcompl == some (some c)) := by
      intro p hmem
      have hlt : p < e.chars.length := List.mem_range.mp hmem
      have hlt2 : e.chars.length - 1 - p < e.chars.length := by omega
      show _ = ((if p < e.chars.length then
            some ((e.chars.getD (e.chars.length - 1 - p) none).map GT_COMPLEMENTBASE)
            else none) == some (some c))
      rw [if_pos hlt]
      match hx : e.chars.getD (e.chars.length - 1 - p) none with
      | none => rfl
      | some v =>
        have hv : v < 4 := hmemv _ hlt2 v hx
        show (v == 3 - c) = ((3 - v : Nat) == c)
        exact (complBeqSwap v c hv hc).symm
    calc gt_encseq_charcount e (3 - c)
        = (List.range e.chars.length).countP
            (fun i => e.chars.getD i none == some (3 - c)) :=
          (countP_range_getD e.chars (fun x => x == some (3 - c))).symm
      _ = (List.range e.chars.length).countP
            (fun p => e.chars.getD (e.chars.length - 1 - p) none == some (3 - c)) :=
          (countP_range_rev e.chars.length
            (fun i => e.chars.getD i none == some (3 - c))).symm
      _ = (List.range e.chars.length).countP
            (fun p => gt_encseq_get_encoded_char e p GtReadmode.revcompl
              == some (some c)) :=
          List.countP_congr (fun p hmem => by rw [hp p hmem])

/-- Witness for C10 at the DNA sequence acgt-with-a-gap under the plain
complement mode and symbol 1. -/
theorem C10_encseq_bucketsizes_witness :
    (1 < 4)
      ∧ (getBucketsize (gt_sainseq_new_from_encseq c10Enc GtReadmode.compl).1
            (gt_sainseq_new_from_encseq c10Enc GtReadmode.compl).2 1
          = (if GT_ISDIRCOMPLEMENT GtReadmode.compl then
              gt_encseq_charcount c10Enc (GT_COMPLEMENTBASE 1)
            else gt_encseq_charcount c10Enc 1)
        ∧ getBucketsize (gt_sainseq_new_from_encseq c10Enc GtReadmode.compl).1
            (gt_sainseq_new_from_encseq c10Enc GtReadmode.compl).2 1
          = (List.range (gt_encseq_total_length c10Enc)).countP
              (fun p => gt_encseq_get_encoded_char c10Enc p GtReadmode.compl
                == some (some 1))) :=
  ⟨by decide,
    C10_encseq_bucketsizes c10Enc GtReadmode.compl 1 (by decide)
      (by
        intro x hx v hv
        subst hv
        have h4 : (some v : Option Nat) = some 0 ∨ (some v : Option Nat) = some 2
            ∨ (some v : Option Nat) = (none : Option Nat)
            ∨ (some v : Option Nat) = some 3 := by
          simpa [c10Enc] using hx
        rcases h4 with h | h | h | h
        · injection h with h2; omega
        · injection h with h2; omega
        · exact Option.noConfusion h
        · injection h with h2; omega) ⟩

/-- One scan step either keeps the LMS count, or, when the scanned
position is L-type with an S-type right neighbour, increments it by one
and hands an L classification on to the next step. -/
theorem saininfo_step_count (cfg : GtSainseqCfg) (q : Nat) (s s1 : GtScanState)
    (h : gt_saininfo_step cfg q s = some s1) :
    s1.countSstartype = s.countSstartype ∨
      (s.nextisStype = true ∧ s1.nextisStype = false ∧
        s1.countSstartype = s.countSstartype + 1) := by
  unfold gt_saininfo_step at h
  cases hcc : gt_sainseq_getchar cfg q with
  | none => rw [hcc] at h; exact absurd h (by simp)
  | some cc =>
    rw [hcc] at h
    simp only [strict_eq] at h
    by_cases hcond : (!(decide (cc < s.nextcc) || (decide (cc = s.nextcc) && s.nextisStype))
        && s.nextisStype) = true
    · rw [if_pos hcond] at h
      have hcond2 := hcond
      simp only [Bool.and_eq_true, Bool.not_eq_true'] at hcond2
      obtain ⟨hb, hS⟩ := hcond2
      cases hbuf : s.buf with
      | some buf =>
        rw [hbuf] at h
        injection h with h2
        subst h2
        exact Or.inr ⟨hS, hb, rfl⟩
      | none =>
        rw [hbuf] at h
        injection h with h2
        subst h2
        exact Or.inr ⟨hS, hb, rfl⟩
    · rw [if_neg hcond] at h
      injection h with h2
      subst h2
      exact Or.inl rfl

/-- A scan step whose symbol is strictly below the loop-carried symbol
classifies the position S-type and keeps the LMS count. -/
theorem saininfo_step_Stype (cfg : GtSainseqCfg) (q : Nat) (s s1 : GtScanState)
    (h : gt_saininfo_step cfg q s = some s1)
    (hlt : ∀ c, gt_sainseq_getchar cfg q = some c → c < s.nextcc) :
    s1.countSstartype = s.countSstartype ∧ s1.nextisStype = true := by
  unfold gt_saininfo_step at h
  cases hcc : gt_sainseq_getchar cfg q with
  | none => rw [hcc] at h; exact absurd h (by simp)
  | some cc =>
    rw [hcc] at h
    simp only [strict_eq] at h
    have hb : (decide (cc < s.nextcc) || (decide (cc = s.nextcc) && s.nextisStype)) = true := by
      have := hlt cc hcc
      simp [this]
    rw [hb] at h
    simp only [Bool.not_true, Bool.false_and, Bool.false_eq_true, if_false] at h
    injection h with h2
    subst h2
    exact ⟨rfl, rfl⟩

/-- Over the scan of positions p down to 0 the LMS count grows by at most
p / 2 + 1 when the position right of p is S-type and by at most
(p + 1) / 2 otherwise: each increment consumes an S-type position strictly
to its right. -/
theorem saininfoLoop_count_bound (cfg : GtSainseqCfg) :
    ∀ (fuel p : Nat) (s s1 : GtScanState),
      saininfoLoop cfg fuel p s = some s1 →
      s1.countSstartype ≤ s.countSstartype +
        (if s.nextisStype then p / 2 + 1 else (p + 1) / 2) := by
  intro fuel
  induction fuel with
  | zero => intro p s s1 h; exact absurd h (by simp [saininfoLoop])
  | succ n ih =>
    intro p s s1 h
    unfold saininfoLoop at h
    cases hstep : gt_saininfo_step cfg p s with
    | none => rw [hstep] at h; exact absurd h (by simp)
    | some s2 =>
      rw [hstep] at h
      change (if p = 0 then some s2 else saininfoLoop cfg n (p - 1) s2) = some s1 at h
      by_cases hp : p = 0
      · rw [if_pos hp] at h
        injection h with h2
        subst h2
        subst hp
        rcases saininfo_step_count cfg 0 s s2 hstep with hsame | ⟨hS, _, hinc⟩
        · cases hst : s.nextisStype <;> simp [hst] <;> omega
        · simp [hS]
          omega
      · rw [if_neg hp] at h
        have hrest := ih (p - 1) s2 s1 h
        rcases saininfo_step_count cfg p s s2 hstep with hsame | ⟨hS, hS2, hinc⟩
        · cases hst : s.nextisStype <;> cases hst2 : s2.nextisStype <;>
            simp [hst, hst2] at hrest ⊢ <;> omega
        · rw [hS2] at hrest
          rw [hS]
          simp at hrest ⊢
          omega

/-- C9: on every non-empty input of a recursion level whose rightmost
readable symbol is below the sentinel bound, the LMS count of the
classification scan of gt_saininfo_new satisfies 2 * count less or equal
the level length: the scanned rightmost position is S-type and every
counted LMS position consumes a distinct S-type position to its right. -/
theorem C9_sstar_bound (cfg : GtSainseqCfg) (st : GtSainState) (k : Nat)
    (hN : 0 < cfg.totallength)
    (hNlt : cfg.totallength < u64)
    (hchar : ∀ c, gt_sainseq_getchar cfg (cfg.totallength - 1) = some c →
      c < GT_UNIQUEINT cfg.totallength)
    (hrun : (gt_saininfo_new cfg st).map (fun r => r.1.countSstartype) = some k) :
    2 * k ≤ cfg.totallength := by
  unfold gt_saininfo_new at hrun
  have hstart : (cfg.totallength + (u64 - 1)) % u64 = cfg.totallength - 1 := by
    simp only [u64] at hNlt ⊢
    omega
  rw [hstart] at hrun
  dsimp only [] at hrun
  cases hloop : saininfoLoop cfg (cfg.totallength - 1 + 1)
      (cfg.totallength - 1)
      { st := gt_sain_endbuckets cfg st, buf := (gt_sainbuffer_new cfg.numofchars).1,
        countSstartype := 0, nextcc := GT_UNIQUEINT cfg.totallength,
        nextisStype := true } with
  | none => rw [hloop] at hrun; exact absurd hrun (by simp)
  | some sEnd =>
    rw [hloop] at hrun
    simp only [Option.map_some] at hrun
    injection hrun with hk
    unfold saininfoLoop at hloop
    cases hstep : gt_saininfo_step cfg (cfg.totallength - 1)
        { st := gt_sain_endbuckets cfg st, buf := (gt_sainbuffer_new cfg.numofchars).1,
          countSstartype := 0, nextcc := GT_UNIQUEINT cfg.totallength,
          nextisStype := true } with
    | none => rw [hstep] at hloop; exact absurd hloop (by simp)
    | some s2 =>
      rw [hstep] at hloop
      change (if cfg.totallength - 1 = 0 then some s2
        else saininfoLoop cfg (cfg.totallength - 1) (cfg.totallength - 1 - 1) s2)
          = some sEnd at hloop
      have hfirst := saininfo_step_Stype cfg (cfg.totallength - 1) _ s2 hstep hchar
      have hzero : s2.countSstartype = 0 := by rw [hfirst.1]
      by_cases h1 : cfg.totallength - 1 = 0
      · rw [if_pos h1] at hloop
        injection hloop with h2
        subst h2
        have hk2 : s2.countSstartype = k := hk
        omega
      · rw [if_neg h1] at hloop
        have hbound := saininfoLoop_count_bound cfg (cfg.totallength - 1)
          (cfg.totallength - 1 - 1) s2 sEnd hloop
        rw [hfirst.2] at hbound
        simp only [if_true] at hbound
        have hk2 : sEnd.countSstartype = k := hk
        omega

/-- Witness for C9 at the plain input cb of length 2, whose scan counts
one LMS position. -/
theorem C9_sstar_bound_witness :
    (0 < cbCfg.totallength ∧ cbCfg.totallength < u64
      ∧ (gt_saininfo_new cbCfg c9St).map (fun r => r.1.countSstartype) = some 1)
      ∧ 2 * 1 ≤ cbCfg.totallength :=
  ⟨⟨by decide, by decide, by decide⟩,
    C9_sstar_bound cbCfg c9St 1 (by decide) (by decide)
      (fun c h => by
        rw [show gt_sainseq_getchar cbCfg (cbCfg.totallength - 1) = some 98 from by decide] at h
        injection h with h2
        subst h2
        decide)
      (by decide)⟩

/-- C1: evaluation at failing inputs.  The ordinary plain sort (verbose,
timer and intermediate check all off) of the byte input aa completes with
SUF = [0, 1] and of banana with SUF = [1, 3, 5, 0, 2, 4]; in each run the
suffix at SUF[0] is a strict extension of the suffix at SUF[1], so it is
not lexicographically smaller in the standard order the claim asserts, in
which a proper prefix precedes its extensions.  Both adjacent pairs do
satisfy the order of the source comparator gt_sain_compare_suffixes
(source lines 1068-1103), which ranks reaching the end of the sequence
above every symbol. -/
theorem C1_standard_order_violated :
    (plainSufArray #[97, 97] 2 false = some [0, 1]
      ∧ ¬ suffixLexLessStd [97, 97] 0 1
      ∧ suffixLexLessEndGreatest [97, 97] 2 0 1)
    ∧ (plainSufArray #[98, 97, 110, 97, 110, 97] 6 false = some [1, 3, 5, 0, 2, 4]
      ∧ ¬ suffixLexLessStd [98, 97, 110, 97, 110, 97] 1 3
      ∧ suffixLexLessEndGreatest [98, 97, 110, 97, 110, 97] 6 1 3) := by
  refine ⟨⟨by decide, ?_, ?_⟩, ⟨by decide, ?_, ?_⟩⟩
  · unfold suffixLexLessStd
    decide
  · unfold suffixLexLessEndGreatest
    decide
  · unfold suffixLexLessStd
    decide
  · unfold suffixLexLessEndGreatest
    decide

end GtSain
